import Mathlib

/-
Verification of the OEM financial-projection engine
(src/config.py, src/financial_model.py, src/run_model.py).

Modelling conventions:
- Python floats are modelled as exact rationals (ℚ); `round` is modelled as
  round-half-to-even on the exact rational value, matching Python semantics.
- pandas/numpy floating values that can become NaN or infinity are modelled by
  the inductive type `PFloat` below (a rational, NaN, or a signed infinity),
  with NaN-propagating arithmetic and numpy division semantics
  (0/0 = NaN, x/0 = signed infinity for x ≠ 0).
- A pandas DataFrame is a list of row records; each column assignment
  `df[c] = expr` becomes a named definition of the value of `c` on one row,
  and stages that need the previous row (`shift(1).fillna(0)`) are written as
  structural recursion threading the previous row's values.
- Python dictionaries keyed by relative year are modelled as `ℤ → Option ℚ`
  (`none` = key absent); `dict.get(k, d)` is `(f k).getD d` and `k in dict`
  is `(f k).isSome`.
- Dynamic attribute access on the configuration: `config.py` defines
  `SoftwareConfig` with only SUBSCRIPTION_PRICE and SERVICE_CONTRACT_PERCENTAGE,
  but `financial_model.py` line 237 reads the attribute
  SOFTWARE_COST_PERCENTAGE, which does not exist, so Python raises
  AttributeError.  The missing attribute is modelled as an `Option ℚ` equal to
  `none`, and `_calculate_pricing` (hence `run_projection`) is Option-valued.
- Real-exponent inflation (`(1+r) ** year_fraction`) is modelled over ℝ with
  `Real.rpow` for the pricing-curve function itself; inside the (computable)
  pipeline the power operation is an explicit parameter `apow`, so that
  concrete claims stay in exact arithmetic.  No pipeline claim depends on the
  value of `apow` because `run_projection` fails before pricing completes.
-/

/-- Model of a pandas/numpy float64 cell over exact rationals: a finite
rational, NaN, or a signed infinity (`inf true` is negative infinity). -/
inductive PFloat where
  | nan : PFloat
  | inf : Bool → PFloat
  | fin : ℚ → PFloat
deriving DecidableEq

namespace PFloat

/-- IEEE-style addition: NaN propagates, opposite infinities give NaN. -/
def add : PFloat → PFloat → PFloat
  | nan, _ => nan
  | _, nan => nan
  | inf b, inf c => if b = c then inf b else nan
  | inf b, fin _ => inf b
  | fin _, inf c => inf c
  | fin a, fin b => fin (a + b)

/-- IEEE-style negation. -/
def neg : PFloat → PFloat
  | nan => nan
  | inf b => inf (!b)
  | fin a => fin (-a)

/-- IEEE-style multiplication: NaN propagates, 0 times infinity is NaN. -/
def mul : PFloat → PFloat → PFloat
  | nan, _ => nan
  | _, nan => nan
  | inf b, inf c => inf (b != c)
  | inf b, fin q => if q = 0 then nan else inf (b != decide (q < 0))
  | fin q, inf c => if q = 0 then nan else inf (c != decide (q < 0))
  | fin a, fin b => fin (a * b)

/-- numpy division: 0/0 is NaN, x/0 for x ≠ 0 is a signed infinity,
anything over an infinity is 0. -/
def div : PFloat → PFloat → PFloat
  | nan, _ => nan
  | _, nan => nan
  | inf _, inf _ => nan
  | inf b, fin q => inf (b != decide (q < 0))
  | fin _, inf _ => fin 0
  | fin a, fin b =>
      if b = 0 then (if a = 0 then nan else inf (decide (a < 0)))
      else fin (a / b)

instance : Add PFloat := ⟨add⟩
instance : Neg PFloat := ⟨neg⟩
instance : Mul PFloat := ⟨mul⟩
instance : Div PFloat := ⟨div⟩

/-- Subtraction, as in IEEE arithmetic, is addition of the negation. -/
def sub (a b : PFloat) : PFloat := a + (-b)

instance : Sub PFloat := ⟨sub⟩

/-- Model of `series.replace(0, np.nan)` on one cell. -/
def replace0nan (x : PFloat) : PFloat := if x = fin 0 then nan else x

/-- Model of `series.fillna(0)` on one cell. -/
def fillna0 (x : PFloat) : PFloat := if x = nan then fin 0 else x

end PFloat

/-
Configuration constants (src/config.py).  The dataclasses carry fixed default
values and `Config()` is always built from the defaults, so each field is a
named rational constant.  Only the fields read by financial_model.py are
needed; SoftwareConfig in particular defines NO software-cost field.
-/

namespace CartConfig

def COMPONENTS_COST : ℚ := 76000
def LABOR_COST_PERCENTAGE : ℚ := 25/100
def TCU_COST : ℚ := 5000
def TCU_PRICE : ℚ := 6000
def UTILITY_CART_COST : ℚ := 3000
def UTILITY_CART_PRICE : ℚ := 6000
def AUTOFILLER_COST : ℚ := 3000
def AUTOFILLER_PRICE : ℚ := 6000

end CartConfig

namespace ConsumablesConfig

def INITIAL_VESSEL_COST : ℚ := 325
def INITIAL_VESSEL_PRICE : ℚ := 600
def SAFETY_FACTOR : ℚ := 1
def INITIAL_AUTOFILLER_PACK_COST : ℚ := 29
def INITIAL_AUTOFILLER_PACK_PRICE : ℚ := 80

end ConsumablesConfig

namespace SoftwareConfig

def SUBSCRIPTION_PRICE : ℚ := 10000
def SERVICE_CONTRACT_PERCENTAGE : ℚ := 10/100

/-- Modelled dynamic attribute lookup of `SOFTWARE_COST_PERCENTAGE` on
`config.software`: config.py's SoftwareConfig defines no such attribute, so
the lookup fails (Python AttributeError at financial_model.py line 237).
It is therefore `none`. -/
def SOFTWARE_COST_PERCENTAGE? : Option ℚ := none

end SoftwareConfig

namespace OperationalConfig

def CART_UTILIZATION_PERCENTAGE : ℚ := 80/100
def PARTNER_HARDWARE_DISCOUNT : ℚ := 25/100
def PARTNER_CONSUMABLES_DISCOUNT : ℚ := 30/100
def INSTALLATION_PRICE : ℚ := 10000
def INSTALLATION_COST : ℚ := 5000

end OperationalConfig

namespace FinancialConfig

def INFLATION_RATE : ℚ := 25/1000
def INITIAL_SELLING_PRICE : ℚ := 212000

end FinancialConfig

namespace ProcessConfig

def AAV_MAN_RUN_PERCENTAGE : ℚ := 0
def AAV_AUTO_RUN_PERCENTAGE : ℚ := 20/100
def MAMMALIAN_RUN_PERCENTAGE : ℚ := 64/100
def MAMMALIAN_GLASS_RUN_PERCENTAGE : ℚ := 16/100
def AAV_RUNS_PER_MONTH : ℚ := 2
def MAMMALIAN_RUNS_PER_MONTH : ℚ := 1

/-- Derived property `TOTAL_RUNS_PER_YEAR_PER_CART` of ProcessConfig. -/
def TOTAL_RUNS_PER_YEAR_PER_CART : ℚ :=
  AAV_RUNS_PER_MONTH * 12 * (AAV_MAN_RUN_PERCENTAGE + AAV_AUTO_RUN_PERCENTAGE)
    + MAMMALIAN_RUNS_PER_MONTH * 12
      * (MAMMALIAN_RUN_PERCENTAGE + MAMMALIAN_GLASS_RUN_PERCENTAGE)

end ProcessConfig

/-- A scenario dictionary.  Keys read with `scenario.get(k, default)` in the
source are `Option`-valued here (the default is applied at the use site, as in
the source); keys read with `scenario[k]` (KeyError if absent) are plain
fields.  The source never reads an `enable_service` key, so there is no such
field. -/
structure Scenario where
  start_year : Option ℤ
  start_month : Option ℤ
  projection_years : Option ℕ
  cost_reduction : ℚ
  service_adoption : ℚ
  apply_inflation : Option Bool
  apply_reduction : Option Bool
  selling_price_reduction_by_year : Option (ℤ → Option ℚ)
  partner_sales_by_year : ℤ → Option ℚ
  direct_sales_by_year : Option (ℤ → Option ℚ)

/-- The literal default dict `{1: 0, 2: 0, 3: 0, 4: 0, 5: 0}` used by
`scenario.get('direct_sales_by_year', ...)`. -/
def defaultDirectDict : ℤ → Option ℚ :=
  fun y => if 1 ≤ y ∧ y ≤ 5 then some 0 else none

/-- `direct_sales_by_year.get(rel_year, 0)` after the dict-level default. -/
def directSalesGet (s : Scenario) (y : ℤ) : ℚ :=
  ((s.direct_sales_by_year.getD defaultDirectDict) y).getD 0

/-- Python `round` on the exact rational value of a float: round half to even,
returning an integer. -/
def pyRound (x : ℚ) : ℤ :=
  let n := ⌊x⌋
  let r := x - n
  if r < 1/2 then n
  else if 1/2 < r then n + 1
  else if n % 2 = 0 then n else n + 1

/-
Time Grid Builder: `_initialize_dataframe` (financial_model.py lines 14-51).
The `Year_Month` display string is omitted (pure formatting; no claim and no
later stage reads it).  Python `//` and `%` are floor division and remainder,
hence `Int.fdiv` / `Int.fmod`.
-/

/-- One row of the grid DataFrame after `_initialize_dataframe`. -/
structure GridRow where
  year : ℤ
  month : ℤ
  dateValue : ℤ
  monthsFromStart : ℤ
  relativeYear : ℤ
  relativeMonth : ℤ
  quarter : ℤ
  monthInQuarter : ℤ
  yearFraction : ℚ
deriving DecidableEq

/-- The derived columns of `_initialize_dataframe` for one surviving
(year, month) pair. -/
def mkGridRow (startYear startMonth y m : ℤ) : GridRow :=
  let startDate := startYear * 12 + startMonth
  let d := y * 12 + m
  let mfs := d - startDate
  { year := y
    month := m
    dateValue := d
    monthsFromStart := mfs
    relativeYear := Int.fdiv mfs 12 + 1
    relativeMonth := Int.fmod mfs 12 + 1
    quarter := Int.fdiv (m - 1) 3 + 1
    monthInQuarter := Int.fmod (m - 1) 3 + 1
    yearFraction := ((y : ℚ) + ((m : ℚ) - 1) / 12)
      - ((startYear : ℚ) + ((startMonth : ℚ) - 1) / 12) }

/-- `_initialize_dataframe(start_year, start_month, projection_years)`:
generate every month of the calendar years from `start_year` through the
computed end year, filter by the month index `year*12+month` to the window
`[start_date, end_date]`, and attach the derived calendar columns. -/
def initDataframe (startYear startMonth : ℤ) (projectionYears : ℕ) :
    List GridRow :=
  let endYear :=
    if startMonth - 1 = 0 then startYear + projectionYears - 1
    else startYear + projectionYears
  let endMonth := if startMonth - 1 = 0 then (12 : ℤ) else startMonth - 1
  let years : List ℤ :=
    (List.range (endYear + 1 - startYear).toNat).map (fun (i : ℕ) => startYear + (i : ℤ))
  let data : List (ℤ × ℤ) :=
    years.flatMap (fun y => (List.range 12).map (fun (m : ℕ) => (y, (m : ℤ) + 1)))
  let startDate := startYear * 12 + startMonth
  let endDate := endYear * 12 + endMonth
  (data.filter (fun p =>
      decide (startDate ≤ p.1 * 12 + p.2 ∧ p.1 * 12 + p.2 ≤ endDate))).map
    (fun p => mkGridRow startYear startMonth p.1 p.2)

/-
Unit Sales Distributor: `_calculate_cart_sales` (financial_model.py lines
60-106).  The loop `for rel_year in range(1, 6)` only distributes relative
years 1..5 (the source comments this with "Assuming 5-year projection"), and
fires only when `rel_year in partner_sales_by_year`; all other rows keep the
initialised 0.  Each (rel_year, rel_month) pair selects at most one grid row,
and the value written to the row selected by `rel_month = (quarter-1)*3 +
month_in_quarter` decomposes as `quarter = (rel_month-1)//3 + 1`,
`month_in_quarter = (rel_month-1)%3 + 1`, so the effect of the loop is the
per-row formula below.
-/

/-- The literal dict `{1: 0.15, 2: 0.20, 3: 0.25, 4: 0.40}`.  The loop only
looks up keys 1..4; other arguments are unreachable there and map to 0. -/
def quarter_distribution (q : ℤ) : ℚ :=
  if q = 1 then 15/100 else if q = 2 then 20/100
  else if q = 3 then 25/100 else if q = 4 then 40/100 else 0

/-- The literal dict `{1: 0.20, 2: 0.30, 3: 0.50}`; the loop only looks up
keys 1..3. -/
def month_in_quarter_distribution (m : ℤ) : ℚ :=
  if m = 1 then 20/100 else if m = 2 then 30/100
  else if m = 3 then 50/100 else 0

/-- The seasonal weight hitting the row with relative month `m`:
the loop writes `round(target * quarter_pct * month_pct)` to that row. -/
def seasonalWeight (m : ℤ) : ℚ :=
  quarter_distribution (Int.fdiv (m - 1) 3 + 1)
    * month_in_quarter_distribution (Int.fmod (m - 1) 3 + 1)

/-- `Partner_Carts` written to a row with relative year `y`, relative month
`m`: nonzero only for `y` in the hard-coded loop range 1..5 AND present in
`partner_sales_by_year`. -/
def partnerCartsAt (s : Scenario) (y m : ℤ) : ℤ :=
  if (1 ≤ y ∧ y ≤ 5) ∧ (s.partner_sales_by_year y).isSome then
    pyRound (((s.partner_sales_by_year y).getD 0) * seasonalWeight m)
  else 0

/-- `Direct_Carts` written to a row: gated on the PARTNER mapping containing
the relative year (the loop condition), with the direct target looked up with
default 0. -/
def directCartsAt (s : Scenario) (y m : ℤ) : ℤ :=
  if (1 ≤ y ∧ y ≤ 5) ∧ (s.partner_sales_by_year y).isSome then
    pyRound (directSalesGet s y * seasonalWeight m)
  else 0

/-- A row after `_calculate_cart_sales`: the grid columns plus the per-month
and cumulative unit columns (int64 in pandas). -/
structure CartRow extends GridRow where
  Direct_Carts : ℤ
  Partner_Carts : ℤ
  Monthly_New_Carts : ℤ
  Total_Carts : ℤ
  Cumulative_Direct_Carts : ℤ
  Cumulative_Partner_Carts : ℤ
deriving DecidableEq

/-- Recursion computing the three `cumsum` columns while mapping the per-row
sales formula over the grid; the accumulators are the running totals. -/
def cartSalesGo (s : Scenario) (cumTotal cumDirect cumPartner : ℤ) :
    List GridRow → List CartRow
  | [] => []
  | g :: rest =>
      let d := directCartsAt s g.relativeYear g.relativeMonth
      let p := partnerCartsAt s g.relativeYear g.relativeMonth
      let mn := d + p
      { toGridRow := g
        Direct_Carts := d
        Partner_Carts := p
        Monthly_New_Carts := mn
        Total_Carts := cumTotal + mn
        Cumulative_Direct_Carts := cumDirect + d
        Cumulative_Partner_Carts := cumPartner + p } ::
        cartSalesGo s (cumTotal + mn) (cumDirect + d) (cumPartner + p) rest

/-- `_calculate_cart_sales(df, scenario)`. -/
def calculateCartSales (s : Scenario) (rows : List GridRow) : List CartRow :=
  cartSalesGo s 0 0 0 rows

/-
Price/Cost Curve Engine: `_apply_inflation_and_reduction` (lines 53-58).
The float computation `initial * (1+rate)**yf * (1 - cr*yf)` is modelled over
the reals, with `Real.rpow` for the fractional-exponent power.
-/

/-- `_apply_inflation_and_reduction(initial_value, year_fraction,
cost_reduction, apply_inflation, apply_reduction)`, over ℝ. -/
noncomputable def applyInflationAndReduction (initialValue yearFraction
    costReduction : ℝ) (applyInflation applyReduction : Bool) : ℝ :=
  let inflationFactor :=
    if applyInflation
    then (1 + (FinancialConfig.INFLATION_RATE : ℝ)) ^ yearFraction
    else 1
  let reductionFactor :=
    if applyReduction then 1 - costReduction * yearFraction else 1
  initialValue * inflationFactor * reductionFactor

/-- The same curve inside the (computable) ℚ pipeline, with the power
operation an explicit parameter `apow` standing for the float `**`.  Every
pipeline claim is independent of `apow` because `run_projection` fails before
`_calculate_pricing` completes (see `SOFTWARE_COST_PERCENTAGE?`). -/
def applyInflationAndReductionQ (apow : ℚ → ℚ → ℚ) (initialValue yearFraction
    costReduction : ℚ) (applyInflation applyReduction : Bool) : ℚ :=
  let inflationFactor :=
    if applyInflation
    then apow (1 + FinancialConfig.INFLATION_RATE) yearFraction
    else 1
  let reductionFactor :=
    if applyReduction then 1 - costReduction * yearFraction else 1
  initialValue * inflationFactor * reductionFactor

/-
Pricing stage: `_calculate_pricing` (lines 108-318).  Line 237 reads
`self.config.software.SOFTWARE_COST_PERCENTAGE`, an attribute config.py does
not define, so this stage raises AttributeError for every scenario: it is
Option-valued and returns `none`.  The (dead) success branch is still spelled
out faithfully below.
-/

/-- A row after `_calculate_pricing`. -/
structure PriceRow extends CartRow where
  Base_Selling_Price : ℚ
  End_Customer_Hardware_Price : ℚ
  Hardware_Manufacturing_Cost : ℚ
  Utility_Cart_Mfg_Cost : ℚ
  Utility_Cart_End_Price : ℚ
  TCU_Mfg_Cost : ℚ
  TCU_End_Price : ℚ
  TCU_Partner_Price : ℚ
  Autofiller_Unit_Mfg_Cost : ℚ
  Autofiller_Unit_End_Price : ℚ
  Total_Hardware_Manufacturing_Cost : ℚ
  Hardware_Partner_Price : ℚ
  Utility_Cart_Partner_Price : ℚ
  Autofiller_Unit_Partner_Price : ℚ
  End_Customer_Software_Price : ℚ
  Software_Our_Cost : ℚ
  Software_Partner_Price : ℚ
  Software_Year_Fraction : ℚ
  Software_Revenue_Factor : ℚ
  End_Customer_Vessel_Price : ℚ
  Vessel_Manufacturing_Cost : ℚ
  Vessel_Partner_Price : ℚ
  End_Customer_Autofiller_Pack_Price : ℚ
  Autofiller_Pack_Mfg_Cost : ℚ
  Autofiller_Pack_Partner_Price : ℚ
  Installation_End_Price : ℚ
  Installation_Our_Cost : ℚ
deriving DecidableEq

/-- The pricing columns for one row, given the looked-up software cost
percentage `scp` (the lookup itself fails; this is the dead success branch).
`apply_inflation` and `apply_reduction` default to `True` via
`scenario.get`. -/
def priceRowOf (apow : ℚ → ℚ → ℚ) (s : Scenario) (scp : ℚ) (r : CartRow) :
    PriceRow :=
  let ai := s.apply_inflation.getD true
  let ar := s.apply_reduction.getD true
  let curve := applyInflationAndReductionQ apow
  let base := curve FinancialConfig.INITIAL_SELLING_PRICE r.yearFraction 0 ai false
  let sprDict := s.selling_price_reduction_by_year.getD (fun _ => none)
  let echp := base * (match sprDict r.relativeYear with
    | some red => 1 - red
    | none => 1)
  let ucEnd := curve CartConfig.UTILITY_CART_PRICE r.yearFraction 0 ai false
  let tcuEnd := curve CartConfig.TCU_PRICE r.yearFraction 0 ai false
  let auEnd := curve CartConfig.AUTOFILLER_PRICE r.yearFraction 0 ai false
  let hwMfg := curve (CartConfig.COMPONENTS_COST
    * (1 + CartConfig.LABOR_COST_PERCENTAGE)) r.yearFraction s.cost_reduction ai ar
  let ucMfg := curve CartConfig.UTILITY_CART_COST r.yearFraction s.cost_reduction ai ar
  let tcuMfg := curve CartConfig.TCU_COST r.yearFraction s.cost_reduction ai ar
  let auMfg := curve CartConfig.AUTOFILLER_COST r.yearFraction s.cost_reduction ai ar
  let ecsp := curve SoftwareConfig.SUBSCRIPTION_PRICE r.yearFraction 0 ai false
  let syf := (13 - (r.month : ℚ)) / 12
  { toCartRow := r
    Base_Selling_Price := base
    End_Customer_Hardware_Price := echp
    Hardware_Manufacturing_Cost := hwMfg
    Utility_Cart_Mfg_Cost := ucMfg
    Utility_Cart_End_Price := ucEnd
    TCU_Mfg_Cost := tcuMfg
    TCU_End_Price := tcuEnd
    TCU_Partner_Price := tcuEnd
    Autofiller_Unit_Mfg_Cost := auMfg
    Autofiller_Unit_End_Price := auEnd
    Total_Hardware_Manufacturing_Cost := hwMfg + ucMfg + tcuMfg
    Hardware_Partner_Price := echp * (1 - OperationalConfig.PARTNER_HARDWARE_DISCOUNT)
    Utility_Cart_Partner_Price := ucEnd * (1 - OperationalConfig.PARTNER_HARDWARE_DISCOUNT)
    Autofiller_Unit_Partner_Price := auEnd * (1 - OperationalConfig.PARTNER_CONSUMABLES_DISCOUNT)
    End_Customer_Software_Price := ecsp
    Software_Our_Cost := ecsp * scp
    Software_Partner_Price := 0
    Software_Year_Fraction := syf
    Software_Revenue_Factor := if 1 < r.month then syf else 1
    End_Customer_Vessel_Price := curve ConsumablesConfig.INITIAL_VESSEL_PRICE r.yearFraction 0 ai false
    Vessel_Manufacturing_Cost := curve ConsumablesConfig.INITIAL_VESSEL_COST r.yearFraction s.cost_reduction ai ar
    Vessel_Partner_Price := curve ConsumablesConfig.INITIAL_VESSEL_PRICE r.yearFraction 0 ai false
      * (1 - OperationalConfig.PARTNER_CONSUMABLES_DISCOUNT)
    End_Customer_Autofiller_Pack_Price := curve ConsumablesConfig.INITIAL_AUTOFILLER_PACK_PRICE r.yearFraction 0 ai false
    Autofiller_Pack_Mfg_Cost := curve ConsumablesConfig.INITIAL_AUTOFILLER_PACK_COST r.yearFraction s.cost_reduction ai ar
    Autofiller_Pack_Partner_Price := curve ConsumablesConfig.INITIAL_AUTOFILLER_PACK_PRICE r.yearFraction 0 ai false
      * (1 - OperationalConfig.PARTNER_CONSUMABLES_DISCOUNT)
    Installation_End_Price := curve OperationalConfig.INSTALLATION_PRICE r.yearFraction 0 ai false
    Installation_Our_Cost := curve OperationalConfig.INSTALLATION_COST r.yearFraction s.cost_reduction ai ar }

/-- `_calculate_pricing(df, scenario)`: fails (AttributeError) at the
software-cost line for every input, because the attribute lookup modelled by
`SOFTWARE_COST_PERCENTAGE?` is `none`. -/
def calculatePricing (apow : ℚ → ℚ → ℚ) (s : Scenario) (rows : List CartRow) :
    Option (List PriceRow) :=
  match SoftwareConfig.SOFTWARE_COST_PERCENTAGE? with
  | none => none
  | some scp => some (rows.map (priceRowOf apow s scp))

/-
Consumables Usage Model: `_calculate_consumables` (lines 320-335).
-/

/-- A row after `_calculate_consumables`. -/
structure ConsRow extends PriceRow where
  Monthly_Runs : ℚ
  Mammalian_Vessels : ℚ
  Mammalian_Glass_Vessels : ℚ
  AAV_Man_Vessels : ℚ
  AAV_Auto_Vessels : ℚ
  Total_Vessels : ℚ
deriving DecidableEq

/-- The consumable-usage columns of one row. -/
def consRowOf (r : PriceRow) : ConsRow :=
  let mr := (r.Total_Carts : ℚ) * 4
    * (ProcessConfig.TOTAL_RUNS_PER_YEAR_PER_CART / 12)
    * OperationalConfig.CART_UTILIZATION_PERCENTAGE
  let mam := mr * ProcessConfig.MAMMALIAN_RUN_PERCENTAGE
  let mamG := mr * ProcessConfig.MAMMALIAN_GLASS_RUN_PERCENTAGE
  let aavM := mr * ProcessConfig.AAV_MAN_RUN_PERCENTAGE
  let aavA := mr * ProcessConfig.AAV_AUTO_RUN_PERCENTAGE
  { toPriceRow := r
    Monthly_Runs := mr
    Mammalian_Vessels := mam
    Mammalian_Glass_Vessels := mamG
    AAV_Man_Vessels := aavM
    AAV_Auto_Vessels := aavA
    Total_Vessels := mam + mamG + aavM + aavA }

/-- `_calculate_consumables(df)`. -/
def calculateConsumables (rows : List PriceRow) : List ConsRow :=
  rows.map consRowOf

/-
Value-Chain Aggregator: `_calculate_value_chain` (lines 337-455).
Each pandas column assignment becomes one definition of the value of that
column on a row.  `prevTotal` and `prevCumPartner` are the previous row's
`Total_Carts` and `Cumulative_Partner_Carts` (`shift(1).fillna(0)`: 0 on the
first row); `carts_ratio_partner` and everything downstream of it are
`PFloat`-valued because the division at line 404 is NOT zero-safe (the
`fillna(0)` is applied to the denominator itself, undoing `replace(0, nan)`,
so a zero installed base gives 0/0 = NaN).
-/

/-- Line 342: `Monthly_New_Carts * Hardware_Manufacturing_Cost`. -/
def Hardware_Our_Cost (r : ConsRow) : ℚ :=
  (r.Monthly_New_Carts : ℚ) * r.Hardware_Manufacturing_Cost

/-- Line 345. -/
def Utility_Cart_Our_Cost (r : ConsRow) : ℚ :=
  (r.Monthly_New_Carts : ℚ) * r.Utility_Cart_Mfg_Cost

/-- Line 348: TCU cost is incurred on ALL new carts (both channels). -/
def TCU_Our_Cost (r : ConsRow) : ℚ :=
  (r.Monthly_New_Carts : ℚ) * r.TCU_Mfg_Cost

/-- Line 351. -/
def Autofiller_Unit_Our_Cost (r : ConsRow) : ℚ :=
  (r.Monthly_New_Carts : ℚ) * r.Autofiller_Unit_Mfg_Cost

/-- Line 354. -/
def Installation_Our_Cost_Total (r : ConsRow) : ℚ :=
  (r.Monthly_New_Carts : ℚ) * r.Installation_Our_Cost

/-- Line 357. -/
def Software_Our_Cost_Total (r : ConsRow) : ℚ :=
  (r.Monthly_New_Carts : ℚ) * r.Software_Our_Cost * r.Software_Revenue_Factor

/-- Line 360. -/
def Vessel_Our_Cost (r : ConsRow) : ℚ :=
  r.Total_Vessels * r.Vessel_Manufacturing_Cost

/-- Line 361. -/
def Autofiller_Pack_Our_Cost (r : ConsRow) : ℚ :=
  r.Total_Vessels * r.Autofiller_Pack_Mfg_Cost * ConsumablesConfig.SAFETY_FACTOR

/-- Lines 364-367: uses the PRIOR period's TOTAL installed base
(`Total_Carts.shift(1).fillna(0)`), with the 0.40 cost ratio hard-coded. -/
def Service_Our_Cost (s : Scenario) (prevTotal : ℤ) (r : ConsRow) : ℚ :=
  (prevTotal : ℚ) * r.End_Customer_Hardware_Price
    * SoftwareConfig.SERVICE_CONTRACT_PERCENTAGE / 12
    * s.service_adoption * (40/100)

/-- Lines 370-374. -/
def Total_Our_Cost (s : Scenario) (prevTotal : ℤ) (r : ConsRow) : ℚ :=
  Hardware_Our_Cost r + Utility_Cart_Our_Cost r
    + TCU_Our_Cost r + Autofiller_Unit_Our_Cost r
    + Installation_Our_Cost_Total r + Software_Our_Cost_Total r
    + Vessel_Our_Cost r + Autofiller_Pack_Our_Cost r
    + Service_Our_Cost s prevTotal r

/-- Line 379. -/
def Hardware_System_Our_Revenue (r : ConsRow) : ℚ :=
  (r.Partner_Carts : ℚ) * r.Hardware_Partner_Price

/-- Line 380. -/
def Utility_Cart_Our_Revenue (r : ConsRow) : ℚ :=
  (r.Partner_Carts : ℚ) * r.Utility_Cart_Partner_Price

/-- Line 381: revenue at cost (pass-through) but only over PARTNER carts. -/
def TCU_Our_Revenue (r : ConsRow) : ℚ :=
  (r.Partner_Carts : ℚ) * r.TCU_Mfg_Cost

/-- Line 382. -/
def Autofiller_Unit_Our_Revenue (r : ConsRow) : ℚ :=
  (r.Partner_Carts : ℚ) * r.Autofiller_Unit_Partner_Price

/-- Lines 385-388. -/
def Total_Hardware_System_Our_Revenue (r : ConsRow) : ℚ :=
  Hardware_System_Our_Revenue r + Utility_Cart_Our_Revenue r
    + TCU_Our_Revenue r + Autofiller_Unit_Our_Revenue r

/-- Line 392: installation billed at the full end price, no discount. -/
def Installation_Our_Revenue (r : ConsRow) : ℚ :=
  (r.Partner_Carts : ℚ) * r.Installation_End_Price

/-- Line 395. -/
def Software_Our_Revenue (r : ConsRow) : ℚ :=
  (r.Partner_Carts : ℚ) * r.End_Customer_Software_Price * r.Software_Revenue_Factor

/-- Lines 398-401: the PRIOR period's cumulative PARTNER carts
(`Cumulative_Partner_Carts.shift(1).fillna(0)`). -/
def Service_Our_Revenue (s : Scenario) (prevCumPartner : ℤ) (r : ConsRow) : ℚ :=
  (prevCumPartner : ℚ) * r.End_Customer_Hardware_Price
    * SoftwareConfig.SERVICE_CONTRACT_PERCENTAGE / 12
    * s.service_adoption

/-- Line 404: `Cumulative_Partner_Carts / Total_Carts.replace(0,
np.nan).fillna(0)` — note the `fillna(0)` re-instates the zero denominator. -/
def carts_ratio_partner (r : ConsRow) : PFloat :=
  PFloat.fin (r.Cumulative_Partner_Carts : ℚ)
    / PFloat.fillna0 (PFloat.replace0nan (PFloat.fin (r.Total_Carts : ℚ)))

/-- Line 405. -/
def Vessel_Our_Revenue (r : ConsRow) : PFloat :=
  PFloat.fin r.Total_Vessels * carts_ratio_partner r
    * PFloat.fin r.Vessel_Partner_Price

/-- Line 406. -/
def Autofiller_Pack_Our_Revenue (r : ConsRow) : PFloat :=
  PFloat.fin r.Total_Vessels * carts_ratio_partner r
    * PFloat.fin r.Autofiller_Pack_Partner_Price
    * PFloat.fin ConsumablesConfig.SAFETY_FACTOR

/-- Line 407. -/
def Total_Consumables_Our_Revenue (r : ConsRow) : PFloat :=
  Vessel_Our_Revenue r + Autofiller_Pack_Our_Revenue r

/-- Lines 410-414. -/
def Total_Our_Revenue (s : Scenario) (prevCumPartner : ℤ) (r : ConsRow) : PFloat :=
  PFloat.fin (Total_Hardware_System_Our_Revenue r)
    + PFloat.fin (Installation_Our_Revenue r)
    + PFloat.fin (Software_Our_Revenue r)
    + PFloat.fin (Service_Our_Revenue s prevCumPartner r)
    + Total_Consumables_Our_Revenue r

/-- Line 418. -/
def Hardware_System_Market_Revenue (r : ConsRow) : ℚ :=
  (r.Partner_Carts : ℚ) * r.End_Customer_Hardware_Price

/-- Line 419. -/
def Utility_Cart_Market_Revenue (r : ConsRow) : ℚ :=
  (r.Partner_Carts : ℚ) * r.Utility_Cart_End_Price

/-- Line 420: market side of TCU uses the END price, not the cost. -/
def TCU_Market_Revenue (r : ConsRow) : ℚ :=
  (r.Partner_Carts : ℚ) * r.TCU_End_Price

/-- Line 421. -/
def Autofiller_Unit_Market_Revenue (r : ConsRow) : ℚ :=
  (r.Partner_Carts : ℚ) * r.Autofiller_Unit_End_Price

/-- Lines 424-427. -/
def Total_Hardware_System_Market_Revenue (r : ConsRow) : ℚ :=
  Hardware_System_Market_Revenue r + Utility_Cart_Market_Revenue r
    + TCU_Market_Revenue r + Autofiller_Unit_Market_Revenue r

/-- Line 430: identical formula to `Installation_Our_Revenue`. -/
def Installation_Market_Revenue (r : ConsRow) : ℚ :=
  (r.Partner_Carts : ℚ) * r.Installation_End_Price

/-- Line 431. -/
def Software_Market_Revenue (r : ConsRow) : ℚ :=
  (r.Partner_Carts : ℚ) * r.End_Customer_Software_Price * r.Software_Revenue_Factor

/-- Lines 432-435: identical formula to `Service_Our_Revenue`. -/
def Service_Market_Revenue (s : Scenario) (prevCumPartner : ℤ) (r : ConsRow) : ℚ :=
  (prevCumPartner : ℚ) * r.End_Customer_Hardware_Price
    * SoftwareConfig.SERVICE_CONTRACT_PERCENTAGE / 12
    * s.service_adoption

/-- Line 438. -/
def Vessel_Market_Revenue (r : ConsRow) : PFloat :=
  PFloat.fin r.Total_Vessels * carts_ratio_partner r
    * PFloat.fin r.End_Customer_Vessel_Price

/-- Line 439. -/
def Autofiller_Pack_Market_Revenue (r : ConsRow) : PFloat :=
  PFloat.fin r.Total_Vessels * carts_ratio_partner r
    * PFloat.fin r.End_Customer_Autofiller_Pack_Price
    * PFloat.fin ConsumablesConfig.SAFETY_FACTOR

/-- Line 440. -/
def Total_Consumables_Market_Revenue (r : ConsRow) : PFloat :=
  Vessel_Market_Revenue r + Autofiller_Pack_Market_Revenue r

/-- Lines 443-447. -/
def Total_Market_Revenue (s : Scenario) (prevCumPartner : ℤ) (r : ConsRow) : PFloat :=
  PFloat.fin (Total_Hardware_System_Market_Revenue r)
    + PFloat.fin (Installation_Market_Revenue r)
    + PFloat.fin (Software_Market_Revenue r)
    + PFloat.fin (Service_Market_Revenue s prevCumPartner r)
    + Total_Consumables_Market_Revenue r

/-- Lines 451-453: the partner-profit roll-up with the software and TCU
correction terms. -/
def Partner_Profit (s : Scenario) (prevCumPartner : ℤ) (r : ConsRow) : PFloat :=
  Total_Market_Revenue s prevCumPartner r
    - Total_Our_Revenue s prevCumPartner r
    - PFloat.fin (Software_Market_Revenue r)
    + PFloat.fin (Software_Our_Revenue r)
    - PFloat.fin (TCU_Market_Revenue r)
    + PFloat.fin (TCU_Our_Revenue r)

/-
Profitability Summarizer: `_calculate_profitability` (lines 457-515).
Every margin column uses the pattern `(num / denom.replace(0, nan)).fillna(0)`
and so is zero-safe; the four contribution columns at lines 510-513 divide by
`Total_Our_Revenue.replace(0, nan)` WITHOUT the closing `fillna(0)`.
-/

/-- Line 460. -/
def Our_Gross_Profit (s : Scenario) (prevTotal prevCumPartner : ℤ)
    (r : ConsRow) : PFloat :=
  Total_Our_Revenue s prevCumPartner r - PFloat.fin (Total_Our_Cost s prevTotal r)

/-- Lines 463-464. -/
def Our_Gross_Margin (s : Scenario) (prevTotal prevCumPartner : ℤ)
    (r : ConsRow) : PFloat :=
  PFloat.fillna0 (Our_Gross_Profit s prevTotal prevCumPartner r
    / PFloat.replace0nan (Total_Our_Revenue s prevCumPartner r))

/-- Lines 468-469 (local `partner_revenue`). -/
def partner_revenue (s : Scenario) (prevCumPartner : ℤ) (r : ConsRow) : PFloat :=
  Total_Market_Revenue s prevCumPartner r
    - PFloat.fin (Software_Market_Revenue r)
    - (PFloat.fin (TCU_Market_Revenue r) - PFloat.fin (TCU_Our_Revenue r))

/-- Line 470. -/
def Partner_Margin (s : Scenario) (prevCumPartner : ℤ) (r : ConsRow) : PFloat :=
  PFloat.fillna0 (Partner_Profit s prevCumPartner r
    / PFloat.replace0nan (partner_revenue s prevCumPartner r))

/-- Lines 474-475. -/
def Hardware_System_Our_Margin (r : ConsRow) : PFloat :=
  PFloat.fillna0 ((PFloat.fin (Hardware_System_Our_Revenue r)
      - PFloat.fin (Hardware_Our_Cost r))
    / PFloat.replace0nan (PFloat.fin (Hardware_System_Our_Revenue r)))

/-- Lines 478-479. -/
def Utility_Cart_Our_Margin (r : ConsRow) : PFloat :=
  PFloat.fillna0 ((PFloat.fin (Utility_Cart_Our_Revenue r)
      - PFloat.fin (Utility_Cart_Our_Cost r))
    / PFloat.replace0nan (PFloat.fin (Utility_Cart_Our_Revenue r)))

/-- Lines 482-483. -/
def TCU_Our_Margin (r : ConsRow) : PFloat :=
  PFloat.fillna0 ((PFloat.fin (TCU_Our_Revenue r) - PFloat.fin (TCU_Our_Cost r))
    / PFloat.replace0nan (PFloat.fin (TCU_Our_Revenue r)))

/-- Lines 486-487. -/
def Autofiller_Unit_Our_Margin (r : ConsRow) : PFloat :=
  PFloat.fillna0 ((PFloat.fin (Autofiller_Unit_Our_Revenue r)
      - PFloat.fin (Autofiller_Unit_Our_Cost r))
    / PFloat.replace0nan (PFloat.fin (Autofiller_Unit_Our_Revenue r)))

/-- Lines 490-491. -/
def Installation_Our_Margin (r : ConsRow) : PFloat :=
  PFloat.fillna0 ((PFloat.fin (Installation_Our_Revenue r)
      - PFloat.fin (Installation_Our_Cost_Total r))
    / PFloat.replace0nan (PFloat.fin (Installation_Our_Revenue r)))

/-- Lines 494-495. -/
def Software_Our_Margin (r : ConsRow) : PFloat :=
  PFloat.fillna0 ((PFloat.fin (Software_Our_Revenue r)
      - PFloat.fin (Software_Our_Cost_Total r))
    / PFloat.replace0nan (PFloat.fin (Software_Our_Revenue r)))

/-- Lines 498-499. -/
def Vessel_Our_Margin (r : ConsRow) : PFloat :=
  PFloat.fillna0 ((Vessel_Our_Revenue r - PFloat.fin (Vessel_Our_Cost r))
    / PFloat.replace0nan (Vessel_Our_Revenue r))

/-- Lines 502-503. -/
def Autofiller_Pack_Our_Margin (r : ConsRow) : PFloat :=
  PFloat.fillna0 ((Autofiller_Pack_Our_Revenue r
      - PFloat.fin (Autofiller_Pack_Our_Cost r))
    / PFloat.replace0nan (Autofiller_Pack_Our_Revenue r))

/-- Lines 506-507. -/
def Service_Our_Margin (s : Scenario) (prevTotal prevCumPartner : ℤ)
    (r : ConsRow) : PFloat :=
  PFloat.fillna0 ((PFloat.fin (Service_Our_Revenue s prevCumPartner r)
      - PFloat.fin (Service_Our_Cost s prevTotal r))
    / PFloat.replace0nan (PFloat.fin (Service_Our_Revenue s prevCumPartner r)))

/-- Line 510: no `fillna(0)` on this or the next three columns. -/
def Hardware_System_Contribution (s : Scenario) (prevCumPartner : ℤ)
    (r : ConsRow) : PFloat :=
  PFloat.fin (Total_Hardware_System_Our_Revenue r)
    / PFloat.replace0nan (Total_Our_Revenue s prevCumPartner r)

/-- Line 511. -/
def Software_Contribution (s : Scenario) (prevCumPartner : ℤ)
    (r : ConsRow) : PFloat :=
  PFloat.fin (Software_Our_Revenue r)
    / PFloat.replace0nan (Total_Our_Revenue s prevCumPartner r)

/-- Line 512. -/
def Consumables_Contribution (s : Scenario) (prevCumPartner : ℤ)
    (r : ConsRow) : PFloat :=
  (Vessel_Our_Revenue r + Autofiller_Pack_Our_Revenue r)
    / PFloat.replace0nan (Total_Our_Revenue s prevCumPartner r)

/-- Line 513. -/
def Services_Contribution (s : Scenario) (prevCumPartner : ℤ)
    (r : ConsRow) : PFloat :=
  PFloat.fin (Service_Our_Revenue s prevCumPartner r + Installation_Our_Revenue r)
    / PFloat.replace0nan (Total_Our_Revenue s prevCumPartner r)

/-
Pipeline wiring: `run_projection` (lines 517-540).  The value-chain and
profitability stages are row-wise given the previous row's cumulative
columns, so the list is paired with those shifted values first.
-/

/-- Pairs every row with the previous row's `Total_Carts` and
`Cumulative_Partner_Carts` (0, 0 before the first row), modelling the two
`shift(1).fillna(0)` lookups. -/
def withPrev (prevTotal prevCumPartner : ℤ) :
    List ConsRow → List (ℤ × ℤ × ConsRow)
  | [] => []
  | r :: rest =>
      (prevTotal, prevCumPartner, r) ::
        withPrev r.Total_Carts r.Cumulative_Partner_Carts rest

/-- A fully evaluated row of the projection table: every column added by
`_calculate_value_chain` and `_calculate_profitability`. -/
structure FinalRow extends ConsRow where
  vHardware_Our_Cost : ℚ
  vUtility_Cart_Our_Cost : ℚ
  vTCU_Our_Cost : ℚ
  vAutofiller_Unit_Our_Cost : ℚ
  vInstallation_Our_Cost_Total : ℚ
  vSoftware_Our_Cost_Total : ℚ
  vVessel_Our_Cost : ℚ
  vAutofiller_Pack_Our_Cost : ℚ
  vService_Our_Cost : ℚ
  vTotal_Our_Cost : ℚ
  vHardware_System_Our_Revenue : ℚ
  vUtility_Cart_Our_Revenue : ℚ
  vTCU_Our_Revenue : ℚ
  vAutofiller_Unit_Our_Revenue : ℚ
  vTotal_Hardware_System_Our_Revenue : ℚ
  vInstallation_Our_Revenue : ℚ
  vSoftware_Our_Revenue : ℚ
  vService_Our_Revenue : ℚ
  vVessel_Our_Revenue : PFloat
  vAutofiller_Pack_Our_Revenue : PFloat
  vTotal_Consumables_Our_Revenue : PFloat
  vTotal_Our_Revenue : PFloat
  vHardware_System_Market_Revenue : ℚ
  vUtility_Cart_Market_Revenue : ℚ
  vTCU_Market_Revenue : ℚ
  vAutofiller_Unit_Market_Revenue : ℚ
  vTotal_Hardware_System_Market_Revenue : ℚ
  vInstallation_Market_Revenue : ℚ
  vSoftware_Market_Revenue : ℚ
  vService_Market_Revenue : ℚ
  vVessel_Market_Revenue : PFloat
  vAutofiller_Pack_Market_Revenue : PFloat
  vTotal_Consumables_Market_Revenue : PFloat
  vTotal_Market_Revenue : PFloat
  vPartner_Profit : PFloat
  vOur_Gross_Profit : PFloat
  vOur_Gross_Margin : PFloat
  vPartner_Margin : PFloat
  vHardware_System_Our_Margin : PFloat
  vUtility_Cart_Our_Margin : PFloat
  vTCU_Our_Margin : PFloat
  vAutofiller_Unit_Our_Margin : PFloat
  vInstallation_Our_Margin : PFloat
  vSoftware_Our_Margin : PFloat
  vVessel_Our_Margin : PFloat
  vAutofiller_Pack_Our_Margin : PFloat
  vService_Our_Margin : PFloat
  vHardware_System_Contribution : PFloat
  vSoftware_Contribution : PFloat
  vConsumables_Contribution : PFloat
  vServices_Contribution : PFloat
deriving DecidableEq

/-- Assembles the value-chain and profitability columns of one row. -/
def finalRowOf (s : Scenario) (prevTotal prevCumPartner : ℤ) (r : ConsRow) :
    FinalRow :=
  { toConsRow := r
    vHardware_Our_Cost := Hardware_Our_Cost r
    vUtility_Cart_Our_Cost := Utility_Cart_Our_Cost r
    vTCU_Our_Cost := TCU_Our_Cost r
    vAutofiller_Unit_Our_Cost := Autofiller_Unit_Our_Cost r
    vInstallation_Our_Cost_Total := Installation_Our_Cost_Total r
    vSoftware_Our_Cost_Total := Software_Our_Cost_Total r
    vVessel_Our_Cost := Vessel_Our_Cost r
    vAutofiller_Pack_Our_Cost := Autofiller_Pack_Our_Cost r
    vService_Our_Cost := Service_Our_Cost s prevTotal r
    vTotal_Our_Cost := Total_Our_Cost s prevTotal r
    vHardware_System_Our_Revenue := Hardware_System_Our_Revenue r
    vUtility_Cart_Our_Revenue := Utility_Cart_Our_Revenue r
    vTCU_Our_Revenue := TCU_Our_Revenue r
    vAutofiller_Unit_Our_Revenue := Autofiller_Unit_Our_Revenue r
    vTotal_Hardware_System_Our_Revenue := Total_Hardware_System_Our_Revenue r
    vInstallation_Our_Revenue := Installation_Our_Revenue r
    vSoftware_Our_Revenue := Software_Our_Revenue r
    vService_Our_Revenue := Service_Our_Revenue s prevCumPartner r
    vVessel_Our_Revenue := Vessel_Our_Revenue r
    vAutofiller_Pack_Our_Revenue := Autofiller_Pack_Our_Revenue r
    vTotal_Consumables_Our_Revenue := Total_Consumables_Our_Revenue r
    vTotal_Our_Revenue := Total_Our_Revenue s prevCumPartner r
    vHardware_System_Market_Revenue := Hardware_System_Market_Revenue r
    vUtility_Cart_Market_Revenue := Utility_Cart_Market_Revenue r
    vTCU_Market_Revenue := TCU_Market_Revenue r
    vAutofiller_Unit_Market_Revenue := Autofiller_Unit_Market_Revenue r
    vTotal_Hardware_System_Market_Revenue := Total_Hardware_System_Market_Revenue r
    vInstallation_Market_Revenue := Installation_Market_Revenue r
    vSoftware_Market_Revenue := Software_Market_Revenue r
    vService_Market_Revenue := Service_Market_Revenue s prevCumPartner r
    vVessel_Market_Revenue := Vessel_Market_Revenue r
    vAutofiller_Pack_Market_Revenue := Autofiller_Pack_Market_Revenue r
    vTotal_Consumables_Market_Revenue := Total_Consumables_Market_Revenue r
    vTotal_Market_Revenue := Total_Market_Revenue s prevCumPartner r
    vPartner_Profit := Partner_Profit s prevCumPartner r
    vOur_Gross_Profit := Our_Gross_Profit s prevTotal prevCumPartner r
    vOur_Gross_Margin := Our_Gross_Margin s prevTotal prevCumPartner r
    vPartner_Margin := Partner_Margin s prevCumPartner r
    vHardware_System_Our_Margin := Hardware_System_Our_Margin r
    vUtility_Cart_Our_Margin := Utility_Cart_Our_Margin r
    vTCU_Our_Margin := TCU_Our_Margin r
    vAutofiller_Unit_Our_Margin := Autofiller_Unit_Our_Margin r
    vInstallation_Our_Margin := Installation_Our_Margin r
    vSoftware_Our_Margin := Software_Our_Margin r
    vVessel_Our_Margin := Vessel_Our_Margin r
    vAutofiller_Pack_Our_Margin := Autofiller_Pack_Our_Margin r
    vService_Our_Margin := Service_Our_Margin s prevTotal prevCumPartner r
    vHardware_System_Contribution := Hardware_System_Contribution s prevCumPartner r
    vSoftware_Contribution := Software_Contribution s prevCumPartner r
    vConsumables_Contribution := Consumables_Contribution s prevCumPartner r
    vServices_Contribution := Services_Contribution s prevCumPartner r }

/-- `run_projection(scenario)` without the optional CSV export: grid, cart
sales, pricing (which fails), consumables, value chain, profitability.
`none` models the AttributeError escaping the call. -/
def runProjection (apow : ℚ → ℚ → ℚ) (s : Scenario) : Option (List FinalRow) :=
  let startYear := s.start_year.getD 2025
  let startMonth := s.start_month.getD 7
  let projectionYears := s.projection_years.getD 5
  let grid := initDataframe startYear startMonth projectionYears
  let carts := calculateCartSales s grid
  (calculatePricing apow s carts).map (fun priced =>
    (withPrev 0 0 (calculateConsumables priced)).map
      (fun x => finalRowOf s x.1 x.2.1 x.2.2))

/-
Concrete inputs used by the claims.
-/

/-- The spec's statement of the pricing-curve formula, written from the
spec's words for comparison with `applyInflationAndReduction`:
`value = base × (1+inflation_rate)^(fractional_year_offset) [if inflation
toggle on, else ×1] × (1 − cost_reduction_rate × fractional_year_offset)
[if reduction toggle on, else ×1]`. -/
noncomputable def specPricingCurve (base k r : ℝ) (inflOn redOn : Bool) : ℝ :=
  base * (if inflOn then (1 + (FinancialConfig.INFLATION_RATE : ℝ)) ^ k else 1)
    * (if redOn then 1 - r * k else 1)

/-- A placeholder for the float `**` operation inside the ℚ pipeline.  Every
concrete scenario below turns both toggles off, so no price depends on it. -/
def apow1 : ℚ → ℚ → ℚ := fun _ _ => 1

/-- The documented end-to-end scenario: start 2025-07, horizon 5, partner
targets {1:30, 2:71, 3:115, 4:176, 5:261}, direct targets all 0, inflation
and reduction off, cost reduction 0, service disabled (adoption 0). -/
def documentedScenario : Scenario :=
  { start_year := some 2025
    start_month := some 7
    projection_years := some 5
    cost_reduction := 0
    service_adoption := 0
    apply_inflation := some false
    apply_reduction := some false
    selling_price_reduction_by_year := some (fun _ => none)
    partner_sales_by_year := fun y =>
      if y = 1 then some 30 else if y = 2 then some 71
      else if y = 3 then some 115 else if y = 4 then some 176
      else if y = 5 then some 261 else none
    direct_sales_by_year := some (fun y =>
      if 1 ≤ y ∧ y ≤ 5 then some 0 else none) }

/-- A scenario whose year-1 partner target (1 unit) is small enough that
every monthly cell rounds to 0, so `Total_Carts` is 0 on every row of its
one-year horizon. -/
def zeroBaseScenario : Scenario :=
  { start_year := some 2025
    start_month := some 7
    projection_years := some 1
    cost_reduction := 0
    service_adoption := 0
    apply_inflation := some false
    apply_reduction := some false
    selling_price_reduction_by_year := some (fun _ => none)
    partner_sales_by_year := fun y => if y = 1 then some 1 else none
    direct_sales_by_year := none }

/-- A scenario with zero sales in relative year 1 (its only target is in
year 2, beyond its one-year horizon). -/
def zeroYearOneScenario : Scenario :=
  { start_year := some 2025
    start_month := some 7
    projection_years := some 1
    cost_reduction := 0
    service_adoption := 0
    apply_inflation := some false
    apply_reduction := some false
    selling_price_reduction_by_year := some (fun _ => none)
    partner_sales_by_year := fun y => if y = 2 then some 12 else none
    direct_sales_by_year := none }

/-- A scenario with both partner (12/year) and direct (120/year) sales in
year 1, so rows with nonzero direct units exist. -/
def directScenario : Scenario :=
  { start_year := some 2025
    start_month := some 7
    projection_years := some 1
    cost_reduction := 0
    service_adoption := 0
    apply_inflation := some false
    apply_reduction := some false
    selling_price_reduction_by_year := some (fun _ => none)
    partner_sales_by_year := fun y => if y = 1 then some 12 else none
    direct_sales_by_year := some (fun y => if y = 1 then some 120 else none) }

/-- A scenario with partner sales (30 in year 1) and full service adoption;
it has no service toggle because no scenario does: the source never reads an
`enable_service` key. -/
def serviceScenario : Scenario :=
  { start_year := some 2025
    start_month := some 7
    projection_years := some 1
    cost_reduction := 0
    service_adoption := 1
    apply_inflation := some false
    apply_reduction := some false
    selling_price_reduction_by_year := some (fun _ => none)
    partner_sales_by_year := fun y => if y = 1 then some 30 else none
    direct_sales_by_year := none }

/-- A six-year scenario whose only target sits at relative year 6, beyond
the distribution loop's hard-coded `range(1, 6)`. -/
def yearSixScenario : Scenario :=
  { start_year := some 2025
    start_month := some 1
    projection_years := some 6
    cost_reduction := 0
    service_adoption := 0
    apply_inflation := some false
    apply_reduction := some false
    selling_price_reduction_by_year := some (fun _ => none)
    partner_sales_by_year := fun y => if y = 6 then some 240 else none
    direct_sales_by_year := none }

/-- The consumables-stage rows a scenario WOULD reach had the software-cost
attribute existed: the claims about `_calculate_value_chain` and
`_calculate_profitability` are settled against these stage inputs (the
stage functions themselves are total; only the attribute lookup in
`_calculate_pricing` fails).  The software cost percentage slot is fed 0;
no claim reads a software-cost column. -/
def stageRows (s : Scenario) : List ConsRow :=
  calculateConsumables
    ((calculateCartSales s
        (initDataframe (s.start_year.getD 2025) (s.start_month.getD 7)
          (s.projection_years.getD 5))).map (priceRowOf apow1 s 0))

/-- The monthly new-unit increment (`Direct_Carts + Partner_Carts`) of the
row built on a grid row. -/
def monthlyNewAt (s : Scenario) (g : GridRow) : ℤ :=
  directCartsAt s g.relativeYear g.relativeMonth
    + partnerCartsAt s g.relativeYear g.relativeMonth

/-- The direct-channel increment of the row built on a grid row. -/
def directNewAt (s : Scenario) (g : GridRow) : ℤ :=
  directCartsAt s g.relativeYear g.relativeMonth

/-- The partner-channel increment of the row built on a grid row. -/
def partnerNewAt (s : Scenario) (g : GridRow) : ℤ :=
  partnerCartsAt s g.relativeYear g.relativeMonth

/-- A cart-sales row with zero installed base: the first month of
`zeroBaseScenario`, whose year-1 target of 1 unit rounds to 0 in every
month. -/
def zeroCartRow : CartRow :=
  { toGridRow := mkGridRow 2025 7 2025 7
    Direct_Carts := 0
    Partner_Carts := 0
    Monthly_New_Carts := 0
    Total_Carts := 0
    Cumulative_Direct_Carts := 0
    Cumulative_Partner_Carts := 0 }

/-- The stage input on which the zero-installed-base behaviour is evaluated:
`zeroCartRow` carried through the (dead) pricing branch and consumables. -/
def zeroConsRow : ConsRow := consRowOf (priceRowOf apow1 zeroBaseScenario 0 zeroCartRow)

/-- The same zero row under the zero-year-one scenario, for the
profitability-stage evaluation. -/
def zeroY1ConsRow : ConsRow :=
  consRowOf (priceRowOf apow1 zeroYearOneScenario 0 zeroCartRow)

/-- Relative month 3 of `directScenario`: partner `round(12·0.075) = 1`,
direct `round(120·0.075) = 9`, with the cumulative columns as the pipeline
would have them (months 1-3 partner 0+1+1, direct 4+5+9). -/
def directCartRow : CartRow :=
  { toGridRow := mkGridRow 2025 7 2025 9
    Direct_Carts := 9
    Partner_Carts := 1
    Monthly_New_Carts := 10
    Total_Carts := 20
    Cumulative_Direct_Carts := 18
    Cumulative_Partner_Carts := 2 }

/-- `directCartRow` carried to the value-chain stage input. -/
def directConsRow : ConsRow :=
  consRowOf (priceRowOf apow1 directScenario 0 directCartRow)

/-- First month of `serviceScenario`: one partner cart installed. -/
def serviceConsRow0 : ConsRow :=
  consRowOf (priceRowOf apow1 serviceScenario 0
    { toGridRow := mkGridRow 2025 7 2025 7
      Direct_Carts := 0
      Partner_Carts := 1
      Monthly_New_Carts := 1
      Total_Carts := 1
      Cumulative_Direct_Carts := 0
      Cumulative_Partner_Carts := 1 })

/-- Second month of `serviceScenario`: another partner cart installed. -/
def serviceConsRow1 : ConsRow :=
  consRowOf (priceRowOf apow1 serviceScenario 0
    { toGridRow := mkGridRow 2025 7 2025 8
      Direct_Carts := 0
      Partner_Carts := 1
      Monthly_New_Carts := 1
      Total_Carts := 2
      Cumulative_Direct_Carts := 0
      Cumulative_Partner_Carts := 2 })

/-
Lemmas.  First the computation rules of `PFloat` arithmetic.
-/

namespace PFloat

@[simp] theorem nan_add (x : PFloat) : nan + x = nan := by cases x <;> rfl

@[simp] theorem add_nan (x : PFloat) : x + nan = nan := by cases x <;> rfl

@[simp] theorem inf_add_inf (b c : Bool) :
    inf b + inf c = if b = c then inf b else nan := rfl

@[simp] theorem inf_add_fin (b : Bool) (q : ℚ) : inf b + fin q = inf b := rfl

@[simp] theorem fin_add_inf (q : ℚ) (c : Bool) : fin q + inf c = inf c := rfl

@[simp] theorem fin_add_fin (a b : ℚ) : fin a + fin b = fin (a + b) := rfl

@[simp] theorem neg_nan : -nan = nan := rfl

@[simp] theorem neg_inf (b : Bool) : -inf b = inf (!b) := rfl

@[simp] theorem neg_fin (a : ℚ) : -fin a = fin (-a) := rfl

theorem sub_eq_add_neg (x y : PFloat) : x - y = x + -y := rfl

@[simp] theorem nan_mul (x : PFloat) : nan * x = nan := by cases x <;> rfl

@[simp] theorem mul_nan (x : PFloat) : x * nan = nan := by cases x <;> rfl

@[simp] theorem fin_mul_fin (a b : ℚ) : fin a * fin b = fin (a * b) := rfl

@[simp] theorem inf_mul_fin (b : Bool) (q : ℚ) :
    inf b * fin q = if q = 0 then nan else inf (b != decide (q < 0)) := rfl

@[simp] theorem fin_mul_inf (q : ℚ) (c : Bool) :
    fin q * inf c = if q = 0 then nan else inf (c != decide (q < 0)) := rfl

@[simp] theorem inf_mul_inf (b c : Bool) : inf b * inf c = inf (b != c) := rfl

@[simp] theorem nan_div (x : PFloat) : nan / x = nan := by cases x <;> rfl

@[simp] theorem div_nan (x : PFloat) : x / nan = nan := by cases x <;> rfl

@[simp] theorem fin_div_fin (a b : ℚ) :
    fin a / fin b =
      if b = 0 then (if a = 0 then nan else inf (decide (a < 0)))
      else fin (a / b) := rfl

@[simp] theorem inf_div_inf (b c : Bool) : inf b / inf c = nan := rfl

@[simp] theorem inf_div_fin (b : Bool) (q : ℚ) :
    inf b / fin q = inf (b != decide (q < 0)) := rfl

@[simp] theorem fin_div_inf (q : ℚ) (c : Bool) : fin q / inf c = fin 0 := rfl

/-- Negation distributes over PFloat addition. -/
theorem neg_add (x y : PFloat) : -(x + y) = -x + -y := by
  cases x <;> cases y <;> simp
  case inf.inf b c =>
    by_cases h : b = c <;> simp [h]
  case fin.fin a b =>
    ring

/-- Adding a finite cell commutes. -/
theorem add_fin_comm (x : PFloat) (a : ℚ) : x + fin a = fin a + x := by
  cases x <;> simp
  case fin b => ring

/-- Subtracting two sums with a common finite summand structure. -/
theorem addfin_sub_addfin (x y : PFloat) (a b : ℚ) :
    (x + fin a) - (y + fin b) = (x - y) + fin (a - b) := by
  rw [sub_eq_add_neg, sub_eq_add_neg, neg_add]
  cases x <;> cases y <;> simp
  case inf.inf c d =>
    by_cases h : c = !d <;> simp [h]
  case fin.fin c d =>
    ring

/-- Folding a finite subtrahend into the finite part. -/
theorem addfin_sub_fin (x : PFloat) (a b : ℚ) :
    (x + fin a) - fin b = x + fin (a - b) := by
  rw [sub_eq_add_neg]
  cases x <;> simp
  case fin c => ring

/-- Folding a finite addend into the finite part. -/
theorem addfin_add_fin (x : PFloat) (a b : ℚ) :
    (x + fin a) + fin b = x + fin (a + b) := by
  cases x <;> simp
  case fin c => ring

end PFloat

/-
Characterisation of the time grid: the generate-then-filter construction of
`_initialize_dataframe` produces exactly one row per month, in order, for
`12 * projection_years` months starting at the start month.
-/

/-- Flattening twelve-month blocks of a double loop into a single range. -/
theorem range_flatMap_blocks {α : Type} (g : ℕ → ℕ → α) (Y : ℕ) :
    ((List.range Y).flatMap fun i => (List.range 12).map fun m => g i m)
      = (List.range (12 * Y)).map fun t => g (t / 12) (t % 12) := by
  induction Y with
  | zero => simp
  | succ n ih =>
      rw [List.range_succ, List.flatMap_append, ih, Nat.mul_succ, List.range_add,
        List.map_append, List.map_map]
      simp only [List.flatMap_cons, List.flatMap_nil, List.append_nil]
      congr 1
      apply List.map_congr_left
      intro m hm
      have hm12 : m < 12 := List.mem_range.mp hm
      have h1 : (12 * n + m) / 12 = n := by omega
      have h2 : (12 * n + m) % 12 = m := by omega
      simp [Function.comp, h1, h2]

/-- Filtering a range to a sub-interval yields the shifted range. -/
theorem range_filter_interval (a k n : ℕ) (h : a + k ≤ n) :
    ((List.range n).filter fun t => decide (a ≤ t) && decide (t < a + k))
      = (List.range k).map (a + ·) := by
  have hn : n = a + k + (n - (a + k)) := by omega
  rw [hn, List.range_add, List.filter_append, List.range_add, List.filter_append]
  have e1 : (List.range a).filter
      (fun t => decide (a ≤ t) && decide (t < a + k)) = [] := by
    rw [List.filter_eq_nil_iff]
    intro t ht
    have := List.mem_range.mp ht
    simp only [Bool.and_eq_true, decide_eq_true_eq]
    omega
  have e2 : ((List.range k).map (a + ·)).filter
      (fun t => decide (a ≤ t) && decide (t < a + k)) = (List.range k).map (a + ·) := by
    rw [List.filter_eq_self]
    intro t ht
    obtain ⟨m, hm, rfl⟩ := List.mem_map.mp ht
    have := List.mem_range.mp hm
    simp only [Bool.and_eq_true, decide_eq_true_eq]
    omega
  have e3 : ((List.range (n - (a + k))).map (a + k + ·)).filter
      (fun t => decide (a ≤ t) && decide (t < a + k)) = [] := by
    rw [List.filter_eq_nil_iff]
    intro t ht
    obtain ⟨m, hm, rfl⟩ := List.mem_map.mp ht
    simp only [Bool.and_eq_true, decide_eq_true_eq]
    omega
  rw [e1, e2, e3, List.nil_append, List.append_nil]

/-- flatMap after a map fuses. -/
theorem flatMap_map_fuse {α β γ : Type} (f : α → β) (g : β → List γ) (l : List α) :
    (l.map f).flatMap g = l.flatMap (fun x => g (f x)) := by
  induction l with
  | nil => rfl
  | cons x xs ih => simp [ih]

/-- Filtering a mapped list filters the underlying list. -/
theorem filter_map_comm {α β : Type} (f : α → β) (p : β → Bool) (l : List α) :
    (l.map f).filter p = (l.filter fun x => p (f x)).map f := by
  induction l with
  | nil => rfl
  | cons x xs ih =>
      by_cases h : p (f x) <;> simp [h, ih]

/-- The time grid is exactly one row per month index `j < 12 * H`, whose
calendar (year, month) pair is recovered from `(start month - 1) + j` by
division and remainder by 12. -/
theorem initDataframe_eq (sy sm : ℤ) (H : ℕ) (h1 : 1 ≤ sm) (h2 : sm ≤ 12) :
    initDataframe sy sm H
      = (List.range (12 * H)).map (fun j =>
          mkGridRow sy sm (sy + ((((sm - 1).toNat + j) / 12 : ℕ) : ℤ))
            (((((sm - 1).toNat + j) % 12 : ℕ) : ℤ) + 1)) := by
  have hsm1 : ((sm - 1).toNat : ℤ) = sm - 1 := by omega
  by_cases hsm : sm - 1 = 0
  · -- January start: the generated years already begin at the start month.
    have ha0 : (sm - 1).toNat = 0 := by omega
    have hY : (sy + (H : ℤ) - 1 + 1 - sy).toNat = H := by omega
    simp only [initDataframe, hsm, if_pos, hY]
    rw [flatMap_map_fuse, range_flatMap_blocks (fun i m => ((sy + (i : ℤ)), ((m : ℕ) : ℤ) + 1)),
      filter_map_comm]
    have hfc : (List.range (12 * H)).filter
        (fun t => decide (sy * 12 + sm ≤ (sy + ((t / 12 : ℕ) : ℤ)) * 12 + (((t % 12 : ℕ) : ℤ) + 1)
          ∧ (sy + ((t / 12 : ℕ) : ℤ)) * 12 + (((t % 12 : ℕ) : ℤ) + 1) ≤ (sy + (H : ℤ) - 1) * 12 + 12))
        = (List.range (12 * H)).filter (fun t => decide (0 ≤ t) && decide (t < 0 + 12 * H)) := by
      apply List.filter_congr
      intro t ht
      have htr : t < 12 * H := List.mem_range.mp ht
      rw [Bool.eq_iff_iff]
      simp only [Bool.and_eq_true, decide_eq_true_eq]
      omega
    rw [hfc, range_filter_interval 0 (12 * H) (12 * H) (by omega), List.map_map, List.map_map]
    apply List.map_congr_left
    intro j hj
    norm_num
  · -- Any other start month: an extra calendar year is generated and the
    -- first `sm - 1` months are filtered away.
    have hY : (sy + (H : ℤ) + 1 - sy).toNat = H + 1 := by omega
    simp only [initDataframe, hsm, if_false, hY]
    rw [flatMap_map_fuse, range_flatMap_blocks (fun i m => ((sy + (i : ℤ)), ((m : ℕ) : ℤ) + 1)),
      filter_map_comm]
    have hfc : (List.range (12 * (H + 1))).filter
        (fun t => decide (sy * 12 + sm ≤ (sy + ((t / 12 : ℕ) : ℤ)) * 12 + (((t % 12 : ℕ) : ℤ) + 1)
          ∧ (sy + ((t / 12 : ℕ) : ℤ)) * 12 + (((t % 12 : ℕ) : ℤ) + 1) ≤ (sy + (H : ℤ)) * 12 + (sm - 1)))
        = (List.range (12 * (H + 1))).filter
            (fun t => decide ((sm - 1).toNat ≤ t) && decide (t < (sm - 1).toNat + 12 * H)) := by
      apply List.filter_congr
      intro t ht
      have htr : t < 12 * (H + 1) := List.mem_range.mp ht
      rw [Bool.eq_iff_iff]
      simp only [Bool.and_eq_true, decide_eq_true_eq]
      omega
    rw [hfc, range_filter_interval ((sm - 1).toNat) (12 * H) (12 * (H + 1)) (by omega),
      List.map_map, List.map_map]
    apply List.map_congr_left
    intro j hj
    simp [Function.comp]

/-- Months-from-start of the `j`-th grid row is exactly `j`. -/
theorem gridRow_monthsFromStart (sy sm : ℤ) (h1 : 1 ≤ sm) (h2 : sm ≤ 12) (j : ℕ) :
    (mkGridRow sy sm (sy + ((((sm - 1).toNat + j) / 12 : ℕ) : ℤ))
      (((((sm - 1).toNat + j) % 12 : ℕ) : ℤ) + 1)).monthsFromStart = j := by
  simp only [mkGridRow]
  omega

/-- Relative year of the `j`-th grid row is `j / 12 + 1`. -/
theorem gridRow_relativeYear (sy sm : ℤ) (h1 : 1 ≤ sm) (h2 : sm ≤ 12) (j : ℕ) :
    (mkGridRow sy sm (sy + ((((sm - 1).toNat + j) / 12 : ℕ) : ℤ))
      (((((sm - 1).toNat + j) % 12 : ℕ) : ℤ) + 1)).relativeYear = ((j / 12 : ℕ) : ℤ) + 1 := by
  have hm : (mkGridRow sy sm (sy + ((((sm - 1).toNat + j) / 12 : ℕ) : ℤ))
      (((((sm - 1).toNat + j) % 12 : ℕ) : ℤ) + 1)).monthsFromStart = j :=
    gridRow_monthsFromStart sy sm h1 h2 j
  simp only [mkGridRow] at hm ⊢
  rw [hm, show ((12 : ℤ)) = ((12 : ℕ) : ℤ) from rfl, Int.ofNat_fdiv]

/-- Relative month of the `j`-th grid row is `j % 12 + 1`. -/
theorem gridRow_relativeMonth (sy sm : ℤ) (h1 : 1 ≤ sm) (h2 : sm ≤ 12) (j : ℕ) :
    (mkGridRow sy sm (sy + ((((sm - 1).toNat + j) / 12 : ℕ) : ℤ))
      (((((sm - 1).toNat + j) % 12 : ℕ) : ℤ) + 1)).relativeMonth = ((j % 12 : ℕ) : ℤ) + 1 := by
  have hm : (mkGridRow sy sm (sy + ((((sm - 1).toNat + j) / 12 : ℕ) : ℤ))
      (((((sm - 1).toNat + j) % 12 : ℕ) : ℤ) + 1)).monthsFromStart = j :=
    gridRow_monthsFromStart sy sm h1 h2 j
  simp only [mkGridRow] at hm ⊢
  rw [hm, show ((12 : ℤ)) = ((12 : ℕ) : ℤ) from rfl, Int.ofNat_fmod]

/-- Counting rows of each relative year over twelve-month blocks. -/
theorem countP_range_blocks (H : ℕ) (y : ℤ) :
    ((List.range (12 * H)).countP fun j => decide ((((j / 12 : ℕ) : ℤ) + 1 = y)))
      = if 1 ≤ y ∧ y ≤ (H : ℤ) then 12 else 0 := by
  induction H with
  | zero =>
      rw [Nat.mul_zero, List.range_zero, List.countP_nil, if_neg]
      intro hy
      have : ((0 : ℕ) : ℤ) = 0 := rfl
      omega
  | succ n ih =>
      rw [show 12 * (n + 1) = 12 * n + 12 by ring, List.range_add, List.countP_append, ih]
      have hblock : ((List.range 12).map (fun m => 12 * n + m)).countP
          (fun j => decide ((((j / 12 : ℕ) : ℤ) + 1 = y)))
          = if y = (n : ℤ) + 1 then 12 else 0 := by
        by_cases hy : y = (n : ℤ) + 1
        · rw [if_pos hy]
          have hall : ∀ a ∈ (List.range 12).map (fun m => 12 * n + m),
              (fun j => decide ((((j / 12 : ℕ) : ℤ) + 1 = y))) a = true := by
            intro a ha
            obtain ⟨m, hm, rfl⟩ := List.mem_map.mp ha
            have hm12 : m < 12 := List.mem_range.mp hm
            simp only [decide_eq_true_eq]
            omega
          rw [List.countP_eq_length.mpr hall, List.length_map, List.length_range]
        · rw [if_neg hy]
          rw [List.countP_eq_zero]
          intro a ha
          obtain ⟨m, hm, rfl⟩ := List.mem_map.mp ha
          have hm12 : m < 12 := List.mem_range.mp hm
          simp only [decide_eq_true_eq]
          omega
      rw [hblock]
      split_ifs <;> omega

/-- Claim C7: for every start year, every start month in 1..12 and every
horizon `H ≥ 1`, the time grid has exactly `12 * H` rows and the
`Relative_Year` column takes each value of `1..H` on exactly 12 rows (and any
other value on none); the construction is total, so in particular a January
start (month wraparound in the end-date computation) cannot raise. -/
theorem C7_row_count_and_relative_years (sy sm : ℤ) (H : ℕ)
    (h1 : 1 ≤ sm) (h2 : sm ≤ 12) (hH : 1 ≤ H) :
    (initDataframe sy sm H).length = 12 * H ∧
    ∀ y : ℤ, ((initDataframe sy sm H).countP
        (fun r => decide (r.relativeYear = y)))
      = if 1 ≤ y ∧ y ≤ (H : ℤ) then 12 else 0 := by
  constructor
  · rw [initDataframe_eq sy sm H h1 h2, List.length_map, List.length_range]
  · intro y
    rw [initDataframe_eq sy sm H h1 h2, List.countP_map]
    have hcg : ((List.range (12 * H)).countP
        ((fun r => decide (r.relativeYear = y)) ∘ (fun j =>
          mkGridRow sy sm (sy + ((((sm - 1).toNat + j) / 12 : ℕ) : ℤ))
            (((((sm - 1).toNat + j) % 12 : ℕ) : ℤ) + 1))))
        = ((List.range (12 * H)).countP fun j => decide ((((j / 12 : ℕ) : ℤ) + 1 = y))) := by
      rw [List.countP_eq_length_filter, List.countP_eq_length_filter]
      congr 1
      apply List.filter_congr
      intro j hj
      simp only [Function.comp]
      rw [gridRow_relativeYear sy sm h1 h2 j]
    rw [hcg, countP_range_blocks]

/-- Witness for C7 at a concrete input, with a January start exercising the
month-wraparound branch. -/
theorem C7_row_count_and_relative_years_witness :
    (initDataframe 2025 1 5).length = 12 * 5 ∧
    ∀ y : ℤ, ((initDataframe 2025 1 5).countP
        (fun r => decide (r.relativeYear = y)))
      = if 1 ≤ y ∧ y ≤ ((5 : ℕ) : ℤ) then 12 else 0 :=
  C7_row_count_and_relative_years 2025 1 5 (by omega) (by omega) (by omega)

/-
Characterisation of `_calculate_cart_sales`: per-row unit formulas and the
cumulative columns as prefix sums.
-/

/-- The sales stage preserves the row count. -/
theorem cartSalesGo_length (s : Scenario) (ct cd cp : ℤ) (rows : List GridRow) :
    (cartSalesGo s ct cd cp rows).length = rows.length := by
  induction rows generalizing ct cd cp with
  | nil => rfl
  | cons g rest ih => simp [cartSalesGo, ih]

/-- The per-month unit columns of the sales stage are the per-row formulas
mapped over the grid. -/
theorem cartSalesGo_monthly (s : Scenario) (ct cd cp : ℤ) (rows : List GridRow) :
    (cartSalesGo s ct cd cp rows).map (fun r => r.Monthly_New_Carts)
      = rows.map (monthlyNewAt s) := by
  induction rows generalizing ct cd cp with
  | nil => rfl
  | cons g rest ih => simp [cartSalesGo, ih, monthlyNewAt, directNewAt, partnerNewAt]

/-- Direct-channel column extraction. -/
theorem cartSalesGo_direct (s : Scenario) (ct cd cp : ℤ) (rows : List GridRow) :
    (cartSalesGo s ct cd cp rows).map (fun r => r.Direct_Carts)
      = rows.map (directNewAt s) := by
  induction rows generalizing ct cd cp with
  | nil => rfl
  | cons g rest ih => simp [cartSalesGo, ih, directNewAt]

/-- Partner-channel column extraction. -/
theorem cartSalesGo_partner (s : Scenario) (ct cd cp : ℤ) (rows : List GridRow) :
    (cartSalesGo s ct cd cp rows).map (fun r => r.Partner_Carts)
      = rows.map (partnerNewAt s) := by
  induction rows generalizing ct cd cp with
  | nil => rfl
  | cons g rest ih => simp [cartSalesGo, ih, partnerNewAt]

/-- Element-wise characterisation of the sales stage: row `i` carries the
grid row, the per-row unit formulas, and the accumulators advanced by the
prefix sums up to and including row `i`. -/
theorem cartSalesGo_getElem? (s : Scenario) (rows : List GridRow) (i : ℕ)
    (ct cd cp : ℤ) :
    (cartSalesGo s ct cd cp rows)[i]? = (rows[i]?).map (fun g =>
      { toGridRow := g
        Direct_Carts := directNewAt s g
        Partner_Carts := partnerNewAt s g
        Monthly_New_Carts := directNewAt s g + partnerNewAt s g
        Total_Carts := ct + ((rows.take (i + 1)).map (monthlyNewAt s)).sum
        Cumulative_Direct_Carts := cd + ((rows.take (i + 1)).map (directNewAt s)).sum
        Cumulative_Partner_Carts := cp + ((rows.take (i + 1)).map (partnerNewAt s)).sum }) := by
  induction rows generalizing i ct cd cp with
  | nil => simp [cartSalesGo]
  | cons g rest ih =>
      cases i with
      | zero =>
          simp [cartSalesGo, monthlyNewAt, directNewAt, partnerNewAt]
      | succ i =>
          simp only [cartSalesGo, List.getElem?_cons_succ, ih, List.take_succ_cons,
            List.map_cons, List.sum_cons]
          cases h : rest[i]? with
          | none => rfl
          | some g2 =>
              simp only [Option.map_some']
              rw [Option.some.injEq]
              have e1 : ct + (directCartsAt s g.relativeYear g.relativeMonth
                    + partnerCartsAt s g.relativeYear g.relativeMonth)
                  + ((rest.take (i + 1)).map (monthlyNewAt s)).sum
                  = ct + (monthlyNewAt s g + ((rest.take (i + 1)).map (monthlyNewAt s)).sum) := by
                simp only [monthlyNewAt, directNewAt, partnerNewAt]
                ring
              have e2 : cd + directCartsAt s g.relativeYear g.relativeMonth
                  + ((rest.take (i + 1)).map (directNewAt s)).sum
                  = cd + (directNewAt s g + ((rest.take (i + 1)).map (directNewAt s)).sum) := by
                simp only [directNewAt]
                ring
              have e3 : cp + partnerCartsAt s g.relativeYear g.relativeMonth
                  + ((rest.take (i + 1)).map (partnerNewAt s)).sum
                  = cp + (partnerNewAt s g + ((rest.take (i + 1)).map (partnerNewAt s)).sum) := by
                simp only [partnerNewAt]
                ring
              rw [CartRow.mk.injEq]
              refine ⟨rfl, rfl, rfl, rfl, ?_, ?_, ?_⟩
              · exact e1
              · exact e2
              · exact e3

/-- Non-negativity of Python rounding on non-negative input. -/
theorem pyRound_nonneg (x : ℚ) (hx : 0 ≤ x) : 0 ≤ pyRound x := by
  have hf : 0 ≤ ⌊x⌋ := Int.floor_nonneg.mpr hx
  simp only [pyRound]
  split_ifs <;> omega

/-- The seasonal weights are non-negative. -/
theorem seasonalWeight_nonneg (m : ℤ) : 0 ≤ seasonalWeight m := by
  unfold seasonalWeight quarter_distribution month_in_quarter_distribution
  split_ifs <;> norm_num

/-- Partner units written to a row are non-negative for non-negative
targets. -/
theorem partnerCartsAt_nonneg (s : Scenario) (y m : ℤ)
    (hp : 0 ≤ (s.partner_sales_by_year y).getD 0) : 0 ≤ partnerCartsAt s y m := by
  unfold partnerCartsAt
  split_ifs
  · exact pyRound_nonneg _ (mul_nonneg hp (seasonalWeight_nonneg m))
  · exact le_refl 0

/-- Direct units written to a row are non-negative for non-negative
targets. -/
theorem directCartsAt_nonneg (s : Scenario) (y m : ℤ)
    (hd : 0 ≤ directSalesGet s y) : 0 ≤ directCartsAt s y m := by
  unfold directCartsAt
  split_ifs
  · exact pyRound_nonneg _ (mul_nonneg hd (seasonalWeight_nonneg m))
  · exact le_refl 0

/-- Element formula for the sales stage at the top level. -/
theorem calculateCartSales_get (s : Scenario) (rows : List GridRow) (i : ℕ)
    (hi : i < rows.length) :
    (calculateCartSales s rows).get
        ⟨i, by simp only [calculateCartSales, cartSalesGo_length]; exact hi⟩
      = { toGridRow := rows.get ⟨i, hi⟩
          Direct_Carts := directNewAt s (rows.get ⟨i, hi⟩)
          Partner_Carts := partnerNewAt s (rows.get ⟨i, hi⟩)
          Monthly_New_Carts := directNewAt s (rows.get ⟨i, hi⟩)
            + partnerNewAt s (rows.get ⟨i, hi⟩)
          Total_Carts := ((rows.take (i + 1)).map (monthlyNewAt s)).sum
          Cumulative_Direct_Carts := ((rows.take (i + 1)).map (directNewAt s)).sum
          Cumulative_Partner_Carts := ((rows.take (i + 1)).map (partnerNewAt s)).sum } := by
  have h := cartSalesGo_getElem? s rows i 0 0 0
  have hlen : i < (calculateCartSales s rows).length := by
    simp only [calculateCartSales, cartSalesGo_length]
    exact hi
  simp only [calculateCartSales] at hlen ⊢
  rw [List.getElem?_eq_getElem hlen, List.getElem?_eq_getElem hi] at h
  simp only [Option.map_some'] at h
  rw [List.get_eq_getElem, List.get_eq_getElem]
  rw [Option.some.injEq] at h
  rw [h]
  simp

/-- Claim C9: for any scenario with non-negative per-year unit targets, the
cumulative columns `Total_Carts`, `Cumulative_Direct_Carts` and
`Cumulative_Partner_Carts` equal, at every row, the prefix sum of their
monthly increment column (`Monthly_New_Carts`, `Direct_Carts`,
`Partner_Carts`) over that row and all prior rows, and each cumulative column
is non-decreasing from one row to the next. -/
theorem C9_cumulative_running_sums_and_monotone (s : Scenario)
    (rows : List GridRow)
    (hp : ∀ y, 0 ≤ (s.partner_sales_by_year y).getD 0)
    (hd : ∀ y, 0 ≤ directSalesGet s y) :
    (∀ (i : ℕ) (hi : i < rows.length),
      (((calculateCartSales s rows).get
          ⟨i, by simp only [calculateCartSales, cartSalesGo_length]; exact hi⟩).Total_Carts
        = (((calculateCartSales s rows).take (i + 1)).map
            (fun r => r.Monthly_New_Carts)).sum
      ∧ ((calculateCartSales s rows).get
          ⟨i, by simp only [calculateCartSales, cartSalesGo_length]; exact hi⟩).Cumulative_Direct_Carts
        = (((calculateCartSales s rows).take (i + 1)).map
            (fun r => r.Direct_Carts)).sum
      ∧ ((calculateCartSales s rows).get
          ⟨i, by simp only [calculateCartSales, cartSalesGo_length]; exact hi⟩).Cumulative_Partner_Carts
        = (((calculateCartSales s rows).take (i + 1)).map
            (fun r => r.Partner_Carts)).sum))
    ∧ (∀ (i : ℕ) (hi : i + 1 < rows.length),
      (((calculateCartSales s rows).get
          ⟨i, by simp only [calculateCartSales, cartSalesGo_length]; omega⟩).Total_Carts
        ≤ ((calculateCartSales s rows).get
          ⟨i + 1, by simp only [calculateCartSales, cartSalesGo_length]; exact hi⟩).Total_Carts)
      ∧ (((calculateCartSales s rows).get
          ⟨i, by simp only [calculateCartSales, cartSalesGo_length]; omega⟩).Cumulative_Direct_Carts
        ≤ ((calculateCartSales s rows).get
          ⟨i + 1, by simp only [calculateCartSales, cartSalesGo_length]; exact hi⟩).Cumulative_Direct_Carts)
      ∧ (((calculateCartSales s rows).get
          ⟨i, by simp only [calculateCartSales, cartSalesGo_length]; omega⟩).Cumulative_Partner_Carts
        ≤ ((calculateCartSales s rows).get
          ⟨i + 1, by simp only [calculateCartSales, cartSalesGo_length]; exact hi⟩).Cumulative_Partner_Carts)) := by
  have hmonthly : (calculateCartSales s rows).map (fun r => r.Monthly_New_Carts)
      = rows.map (monthlyNewAt s) := by
    simp only [calculateCartSales]
    exact cartSalesGo_monthly s 0 0 0 rows
  have hdirect : (calculateCartSales s rows).map (fun r => r.Direct_Carts)
      = rows.map (directNewAt s) := by
    simp only [calculateCartSales]
    exact cartSalesGo_direct s 0 0 0 rows
  have hpartner : (calculateCartSales s rows).map (fun r => r.Partner_Carts)
      = rows.map (partnerNewAt s) := by
    simp only [calculateCartSales]
    exact cartSalesGo_partner s 0 0 0 rows
  have hsum : ∀ (i : ℕ), (hi : i + 1 < rows.length) → ∀ (g : GridRow → ℤ),
      ((rows.take (i + 1 + 1)).map g).sum
        = ((rows.take (i + 1)).map g).sum + g (rows.get ⟨i + 1, hi⟩) := by
    intro i hi g
    rw [List.take_succ, List.map_append, List.sum_append,
      List.getElem?_eq_getElem hi]
    simp
  constructor
  · intro i hi
    rw [calculateCartSales_get s rows i hi]
    refine ⟨?_, ?_, ?_⟩
    · simp only [List.map_take, hmonthly]
    · simp only [List.map_take, hdirect]
    · simp only [List.map_take, hpartner]
  · intro i hi
    have hi0 : i < rows.length := by omega
    rw [calculateCartSales_get s rows i hi0, calculateCartSales_get s rows (i + 1) hi]
    have hnn : 0 ≤ monthlyNewAt s (rows.get ⟨i + 1, hi⟩) :=
      add_nonneg (directCartsAt_nonneg s _ _ (hd _)) (partnerCartsAt_nonneg s _ _ (hp _))
    have hnd : 0 ≤ directNewAt s (rows.get ⟨i + 1, hi⟩) :=
      directCartsAt_nonneg s _ _ (hd _)
    have hnp : 0 ≤ partnerNewAt s (rows.get ⟨i + 1, hi⟩) :=
      partnerCartsAt_nonneg s _ _ (hp _)
    dsimp only
    refine ⟨?_, ?_, ?_⟩
    · rw [hsum i hi (monthlyNewAt s)]
      omega
    · rw [hsum i hi (directNewAt s)]
      omega
    · rw [hsum i hi (partnerNewAt s)]
      omega

/-- Every row produced by the sales stage carries the per-row unit-sales
formulas of its own relative year and month. -/
theorem cartSalesGo_mem_formula (s : Scenario) (ct cd cp : ℤ)
    (rows : List GridRow) :
    ∀ r ∈ cartSalesGo s ct cd cp rows,
      r.Partner_Carts = partnerCartsAt s r.relativeYear r.relativeMonth
      ∧ r.Direct_Carts = directCartsAt s r.relativeYear r.relativeMonth := by
  induction rows generalizing ct cd cp with
  | nil => intro r hr; cases hr
  | cons g rest ih =>
      intro r hr
      simp only [cartSalesGo] at hr
      rw [List.mem_cons] at hr
      rcases hr with hr | hr
      · subst hr
        constructor <;> rfl
      · exact ih _ _ _ r hr

/-- Claim C6 (amended): a row receives
`round(target × quarter weight × in-quarter month weight)` per channel
exactly when its relative year is in the hard-coded loop range 1..5 AND
present in the partner mapping (the direct channel is gated on the PARTNER
mapping and defaults its own target to 0); every other row — in particular
every row of a relative year ≥ 6, whatever the horizon — receives 0. -/
theorem C6_monthly_distribution_amended (s : Scenario) (rows : List GridRow) :
    ∀ r ∈ calculateCartSales s rows,
      r.Partner_Carts = (if (1 ≤ r.relativeYear ∧ r.relativeYear ≤ 5)
            ∧ (s.partner_sales_by_year r.relativeYear).isSome then
          pyRound (((s.partner_sales_by_year r.relativeYear).getD 0)
            * quarter_distribution (Int.fdiv (r.relativeMonth - 1) 3 + 1)
            * month_in_quarter_distribution (Int.fmod (r.relativeMonth - 1) 3 + 1))
        else 0)
      ∧ r.Direct_Carts = (if (1 ≤ r.relativeYear ∧ r.relativeYear ≤ 5)
            ∧ (s.partner_sales_by_year r.relativeYear).isSome then
          pyRound (directSalesGet s r.relativeYear
            * quarter_distribution (Int.fdiv (r.relativeMonth - 1) 3 + 1)
            * month_in_quarter_distribution (Int.fmod (r.relativeMonth - 1) 3 + 1))
        else 0) := by
  intro r hr
  have h := cartSalesGo_mem_formula s 0 0 0 rows r hr
  rw [partnerCartsAt, directCartsAt, seasonalWeight] at h
  simp only [← mul_assoc] at h
  exact h

/-- Witness for C6 (amended) at the documented scenario's first grid row. -/
theorem C6_monthly_distribution_amended_witness :
    ((calculateCartSales documentedScenario (initDataframe 2025 7 5)).get
        ⟨0, by
          simp only [calculateCartSales, cartSalesGo_length,
            initDataframe_eq 2025 7 5 (by norm_num) (by norm_num)]
          simp⟩).Partner_Carts
      = (if (1 ≤ ((calculateCartSales documentedScenario (initDataframe 2025 7 5)).get
              ⟨0, by
                simp only [calculateCartSales, cartSalesGo_length,
                  initDataframe_eq 2025 7 5 (by norm_num) (by norm_num)]
                simp⟩).relativeYear
            ∧ ((calculateCartSales documentedScenario (initDataframe 2025 7 5)).get
              ⟨0, by
                simp only [calculateCartSales, cartSalesGo_length,
                  initDataframe_eq 2025 7 5 (by norm_num) (by norm_num)]
                simp⟩).relativeYear ≤ 5)
          ∧ (documentedScenario.partner_sales_by_year
            ((calculateCartSales documentedScenario (initDataframe 2025 7 5)).get
              ⟨0, by
                simp only [calculateCartSales, cartSalesGo_length,
                  initDataframe_eq 2025 7 5 (by norm_num) (by norm_num)]
                simp⟩).relativeYear).isSome then
        pyRound (((documentedScenario.partner_sales_by_year
            ((calculateCartSales documentedScenario (initDataframe 2025 7 5)).get
              ⟨0, by
                simp only [calculateCartSales, cartSalesGo_length,
                  initDataframe_eq 2025 7 5 (by norm_num) (by norm_num)]
                simp⟩).relativeYear).getD 0)
          * quarter_distribution (Int.fdiv
            (((calculateCartSales documentedScenario (initDataframe 2025 7 5)).get
              ⟨0, by
                simp only [calculateCartSales, cartSalesGo_length,
                  initDataframe_eq 2025 7 5 (by norm_num) (by norm_num)]
                simp⟩).relativeMonth - 1) 3 + 1)
          * month_in_quarter_distribution (Int.fmod
            (((calculateCartSales documentedScenario (initDataframe 2025 7 5)).get
              ⟨0, by
                simp only [calculateCartSales, cartSalesGo_length,
                  initDataframe_eq 2025 7 5 (by norm_num) (by norm_num)]
                simp⟩).relativeMonth - 1) 3 + 1))
      else 0) :=
  ((C6_monthly_distribution_amended documentedScenario (initDataframe 2025 7 5))
    _ (List.get_mem _ _ _)).1

/-- Claim C6 counterexample: in a six-year projection whose partner mapping
contains relative year 6 (target 240), the year-6 rows do NOT receive
`round(target × quarter weight × month weight)` — the distribution loop is
hard-coded to relative years 1..5, so row 61 (relative year 6, month 1) gets
0 units instead of `round(240 × 0.15 × 0.20) = 7`. -/
theorem C6_counterexample :
    ¬ (∀ r ∈ calculateCartSales yearSixScenario (initDataframe 2025 1 6),
        r.Partner_Carts = pyRound
          (((yearSixScenario.partner_sales_by_year r.relativeYear).getD 0)
            * quarter_distribution (Int.fdiv (r.relativeMonth - 1) 3 + 1)
            * month_in_quarter_distribution (Int.fmod (r.relativeMonth - 1) 3 + 1))) := by
  intro h
  have hchar := initDataframe_eq 2025 1 6 (by norm_num) (by norm_num)
  have hlen : (initDataframe 2025 1 6).length = 72 := by
    rw [hchar]
    simp
  have hlt : 60 < (initDataframe 2025 1 6).length := by omega
  have hg : (initDataframe 2025 1 6).get ⟨60, hlt⟩ = mkGridRow 2025 1 2030 1 := by
    have hsome : (initDataframe 2025 1 6)[60]? = some (mkGridRow 2025 1 2030 1) := by
      rw [hchar, List.getElem?_map, List.getElem?_range]
      all_goals norm_num
    rw [List.get_eq_getElem]
    rw [List.getElem?_eq_getElem hlt] at hsome
    exact Option.some.inj hsome
  have hget := calculateCartSales_get yearSixScenario (initDataframe 2025 1 6) 60 hlt
  have h60 := h _ (List.get_mem (calculateCartSales yearSixScenario
    (initDataframe 2025 1 6)) 60
    (by simp only [calculateCartSales, cartSalesGo_length]; exact hlt))
  rw [hget] at h60
  dsimp only at h60
  rw [hg] at h60
  have hry : (mkGridRow 2025 1 2030 1).relativeYear = 6 := by decide
  have hrm : (mkGridRow 2025 1 2030 1).relativeMonth = 1 := by decide
  rw [hry, hrm] at h60
  have hpc : partnerNewAt yearSixScenario (mkGridRow 2025 1 2030 1) = 0 := by
    rw [partnerNewAt, hry, hrm]
    decide
  rw [hpc] at h60
  have h240 : (yearSixScenario.partner_sales_by_year (6 : ℤ)).getD 0 = 240 := rfl
  have hq : quarter_distribution (Int.fdiv ((1 : ℤ) - 1) 3 + 1) = 15/100 := rfl
  have hm : month_in_quarter_distribution (Int.fmod ((1 : ℤ) - 1) 3 + 1) = 20/100 := rfl
  rw [h240, hq, hm] at h60
  have hfl : ⌊(240 * (15/100) * (20/100) : ℚ)⌋ = 7 := by
    rw [Int.floor_eq_iff]
    constructor <;> norm_num
  rw [pyRound] at h60
  simp only [hfl] at h60
  norm_num at h60

/-- Witness for C9: the documented scenario's first row, where the cumulative
installed base equals the one-element prefix sum. -/
theorem C9_cumulative_running_sums_and_monotone_witness :
    ((calculateCartSales documentedScenario (initDataframe 2025 7 5)).get
        ⟨0, by
          simp only [calculateCartSales, cartSalesGo_length,
            initDataframe_eq 2025 7 5 (by norm_num) (by norm_num)]
          simp⟩).Total_Carts
      = (((calculateCartSales documentedScenario (initDataframe 2025 7 5)).take 1).map
          (fun r => r.Monthly_New_Carts)).sum :=
  (((C9_cumulative_running_sums_and_monotone documentedScenario
      (initDataframe 2025 7 5)
      (by
        intro y
        simp only [documentedScenario]
        split_ifs <;> norm_num)
      (by
        intro y
        simp only [directSalesGet, documentedScenario, Option.getD_some]
        split_ifs <;> norm_num)).1) 0
    (by
      simp only [initDataframe_eq 2025 7 5 (by norm_num) (by norm_num)]
      simp)).1

/-
Claim C8: the pricing-curve function.
-/

/-- Claim C8: `_apply_inflation_and_reduction` computes exactly the spec's
formula `base × (1+INFLATION_RATE)^k` (inflation toggle) `× (1 − r·k)`
(reduction toggle); with both toggles off it returns the base unchanged;
inflation compounds exponentially (multiplicative in the exponent) while the
cost reduction is linear in the fractional-year offset. -/
theorem C8_pricing_curve :
    (∀ (b k r : ℝ) (ai ar : Bool),
      applyInflationAndReduction b k r ai ar = specPricingCurve b k r ai ar)
    ∧ (∀ b k r : ℝ, applyInflationAndReduction b k r false false = b)
    ∧ (∀ b k1 k2 r : ℝ,
      applyInflationAndReduction b (k1 + k2) r true false
        = applyInflationAndReduction b k1 r true false
          * (1 + (FinancialConfig.INFLATION_RATE : ℝ)) ^ k2)
    ∧ (∀ b k r : ℝ,
      applyInflationAndReduction b (k + 1) r false true
        = applyInflationAndReduction b k r false true - b * r) := by
  have hpos : (0 : ℝ) < 1 + (FinancialConfig.INFLATION_RATE : ℝ) := by
    rw [FinancialConfig.INFLATION_RATE]
    push_cast
    norm_num
  refine ⟨?_, ?_, ?_, ?_⟩
  · intro b k r ai ar
    rfl
  · intro b k r
    simp [applyInflationAndReduction]
  · intro b k1 k2 r
    simp only [applyInflationAndReduction, if_pos, if_neg, Bool.false_eq_true,
      if_false, if_true, mul_one]
    rw [Real.rpow_add hpos]
    ring
  · intro b k r
    simp only [applyInflationAndReduction, Bool.false_eq_true, if_false, if_true]
    ring

/-
Claim C1: the end-to-end run.
-/

/-- Claim C1 (code bug): `run_projection` never produces the row table — for
the documented scenario (and indeed every scenario), `_calculate_pricing`
reads the nonexistent configuration attribute modelled by
`SOFTWARE_COST_PERCENTAGE?` and the AttributeError aborts the run, so the
result is `none` rather than a 60-row table with the claimed sums. -/
theorem C1_run_projection_fails :
    (∀ apow : ℚ → ℚ → ℚ, runProjection apow documentedScenario = none)
    ∧ (∀ (apow : ℚ → ℚ → ℚ) (s : Scenario), runProjection apow s = none) := by
  constructor
  · intro apow
    rfl
  · intro apow s
    rfl

/-
Characterisation of the partner-profit roll-up: the software and TCU terms
cancel exactly, leaving the hardware, installation, service and consumables
spreads.
-/

/-- Partner profit decomposes into the consumables spread plus a finite part
in which every software and TCU term has cancelled. -/
theorem Partner_Profit_char (s : Scenario) (pC : ℤ) (r : ConsRow) :
    Partner_Profit s pC r
      = (Total_Consumables_Market_Revenue r - Total_Consumables_Our_Revenue r)
        + PFloat.fin (Total_Hardware_System_Market_Revenue r
            + Installation_Market_Revenue r + Service_Market_Revenue s pC r
            - (Total_Hardware_System_Our_Revenue r + Installation_Our_Revenue r
              + Service_Our_Revenue s pC r)
            - TCU_Market_Revenue r + TCU_Our_Revenue r) := by
  unfold Partner_Profit Total_Market_Revenue Total_Our_Revenue
  simp only [PFloat.fin_add_fin]
  rw [← PFloat.add_fin_comm (Total_Consumables_Market_Revenue r),
    ← PFloat.add_fin_comm (Total_Consumables_Our_Revenue r),
    PFloat.addfin_sub_addfin, PFloat.addfin_sub_fin, PFloat.addfin_add_fin,
    PFloat.addfin_sub_fin, PFloat.addfin_add_fin]
  congr 2
  ring

/-
Claim C2: the consumables split on a zero installed base.
-/

/-- On a row with zero installed base the installed-base share and the four
channel-split consumables revenue columns are all NaN (shared helper). -/
theorem zeroBase_split_nan (r : ConsRow) (h : r.Total_Carts = 0)
    (h2 : r.Cumulative_Partner_Carts = 0) :
    carts_ratio_partner r = PFloat.nan
    ∧ Vessel_Our_Revenue r = PFloat.nan
    ∧ Autofiller_Pack_Our_Revenue r = PFloat.nan
    ∧ Vessel_Market_Revenue r = PFloat.nan
    ∧ Autofiller_Pack_Market_Revenue r = PFloat.nan
    ∧ PFloat.nan ≠ PFloat.fin 0 := by
  have hratio : carts_ratio_partner r = PFloat.nan := by
    unfold carts_ratio_partner
    rw [h, h2]
    simp [PFloat.replace0nan, PFloat.fillna0]
  refine ⟨hratio, ?_, ?_, ?_, ?_, by simp⟩
  · unfold Vessel_Our_Revenue
    rw [hratio]
    simp
  · unfold Autofiller_Pack_Our_Revenue
    rw [hratio]
    simp
  · unfold Vessel_Market_Revenue
    rw [hratio]
    simp
  · unfold Autofiller_Pack_Market_Revenue
    rw [hratio]
    simp

/-- Claim C2 (code bug): on every row whose cumulative installed base
`Total_Carts` is zero, the installed-base share `carts_ratio_partner` is NaN
— not 0 — because the `fillna(0)` at line 404 is applied to the denominator
itself (undoing `replace(0, nan)`) rather than to the quotient, and the NaN
propagates into all four channel-split consumables revenue columns. -/
theorem C2_zero_base_ratio_is_nan (r : ConsRow) (h : r.Total_Carts = 0)
    (h2 : r.Cumulative_Partner_Carts = 0) :
    carts_ratio_partner r = PFloat.nan
    ∧ Vessel_Our_Revenue r = PFloat.nan
    ∧ Autofiller_Pack_Our_Revenue r = PFloat.nan
    ∧ Vessel_Market_Revenue r = PFloat.nan
    ∧ Autofiller_Pack_Market_Revenue r = PFloat.nan
    ∧ PFloat.nan ≠ PFloat.fin 0 :=
  zeroBase_split_nan r h h2

/-- Witness for C2 at the concrete zero-installed-base stage row. -/
theorem C2_zero_base_ratio_is_nan_witness :
    carts_ratio_partner zeroConsRow = PFloat.nan
    ∧ Vessel_Our_Revenue zeroConsRow = PFloat.nan
    ∧ Autofiller_Pack_Our_Revenue zeroConsRow = PFloat.nan
    ∧ Vessel_Market_Revenue zeroConsRow = PFloat.nan
    ∧ Autofiller_Pack_Market_Revenue zeroConsRow = PFloat.nan
    ∧ PFloat.nan ≠ PFloat.fin 0 :=
  C2_zero_base_ratio_is_nan zeroConsRow rfl rfl

/-
Claim C5: margins and contribution ratios on rows without sales.
-/

/-- Claim C5 (code bug): on a row with zero installed base (as every
relative-year-1 row of a scenario with zero year-1 targets is), the four
contribution columns of `_calculate_profitability` evaluate to NaN — their
divisions by `Total_Our_Revenue.replace(0, nan)` carry no closing
`fillna(0)`, and `Total_Our_Revenue` itself is already NaN via the
consumables split — while the margin columns, which do close with
`fillna(0)`, come out 0 as the spec demands. -/
theorem C5_contributions_nan (s : Scenario) (pT pC : ℤ) (r : ConsRow)
    (h : r.Total_Carts = 0) (h2 : r.Cumulative_Partner_Carts = 0) :
    Hardware_System_Contribution s pC r = PFloat.nan
    ∧ Software_Contribution s pC r = PFloat.nan
    ∧ Consumables_Contribution s pC r = PFloat.nan
    ∧ Services_Contribution s pC r = PFloat.nan
    ∧ Our_Gross_Margin s pT pC r = PFloat.fin 0
    ∧ Vessel_Our_Margin r = PFloat.fin 0
    ∧ Autofiller_Pack_Our_Margin r = PFloat.fin 0 := by
  obtain ⟨hratio, hv, ha, hvm, ham, hne⟩ := zeroBase_split_nan r h h2
  have hcons : Total_Consumables_Our_Revenue r = PFloat.nan := by
    unfold Total_Consumables_Our_Revenue
    rw [hv, ha]
    rfl
  have htot : Total_Our_Revenue s pC r = PFloat.nan := by
    unfold Total_Our_Revenue
    rw [hcons]
    simp
  refine ⟨?_, ?_, ?_, ?_, ?_, ?_, ?_⟩
  · unfold Hardware_System_Contribution
    rw [htot]
    simp [PFloat.replace0nan]
  · unfold Software_Contribution
    rw [htot]
    simp [PFloat.replace0nan]
  · unfold Consumables_Contribution
    rw [htot, hv, ha]
    simp [PFloat.replace0nan]
  · unfold Services_Contribution
    rw [htot]
    simp [PFloat.replace0nan]
  · unfold Our_Gross_Margin Our_Gross_Profit
    rw [htot]
    simp [PFloat.replace0nan, PFloat.fillna0, PFloat.sub_eq_add_neg]
  · unfold Vessel_Our_Margin
    rw [hv]
    simp [PFloat.replace0nan, PFloat.fillna0, PFloat.sub_eq_add_neg]
  · unfold Autofiller_Pack_Our_Margin
    rw [ha]
    simp [PFloat.replace0nan, PFloat.fillna0, PFloat.sub_eq_add_neg]

/-- Witness for C5 at the concrete zero-sales stage row of the
zero-year-one-target scenario. -/
theorem C5_contributions_nan_witness :
    Hardware_System_Contribution zeroYearOneScenario 0 zeroY1ConsRow = PFloat.nan
    ∧ Software_Contribution zeroYearOneScenario 0 zeroY1ConsRow = PFloat.nan
    ∧ Consumables_Contribution zeroYearOneScenario 0 zeroY1ConsRow = PFloat.nan
    ∧ Services_Contribution zeroYearOneScenario 0 zeroY1ConsRow = PFloat.nan
    ∧ Our_Gross_Margin zeroYearOneScenario 0 0 zeroY1ConsRow = PFloat.fin 0
    ∧ Vessel_Our_Margin zeroY1ConsRow = PFloat.fin 0
    ∧ Autofiller_Pack_Our_Margin zeroY1ConsRow = PFloat.fin 0 :=
  C5_contributions_nan zeroYearOneScenario 0 0 zeroY1ConsRow rfl rfl

/-
Claim C3: the TCU pass-through line.
-/

/-- Claim C3 (amended): TCU internal revenue equals TCU internal cost on the
rows where the DIRECT channel sold nothing (internal revenue counts only
partner carts, internal cost counts all new carts); and the TCU line
contributes exactly zero to `Partner_Profit` for every row — not because TCU
market revenue equals TCU internal revenue (it does not: end price versus
manufacturing cost), but because the explicit correction terms cancel the
TCU components inside the two totals, making `Partner_Profit` independent of
both TCU price columns. -/
theorem C3_TCU_amended (s : Scenario) (pC : ℤ) (r : ConsRow) :
    (r.Monthly_New_Carts = r.Direct_Carts + r.Partner_Carts →
      r.Direct_Carts = 0 → TCU_Our_Revenue r = TCU_Our_Cost r)
    ∧ (∀ c p : ℚ,
      Partner_Profit s pC { r with TCU_Mfg_Cost := c, TCU_End_Price := p }
        = Partner_Profit s pC r) := by
  constructor
  · intro hm hd
    unfold TCU_Our_Revenue TCU_Our_Cost
    rw [hm, hd]
    push_cast
    ring
  · intro c p
    rw [Partner_Profit_char, Partner_Profit_char]
    congr 1
    unfold Total_Hardware_System_Market_Revenue Total_Hardware_System_Our_Revenue
      Hardware_System_Market_Revenue Utility_Cart_Market_Revenue
      TCU_Market_Revenue Autofiller_Unit_Market_Revenue
      Hardware_System_Our_Revenue Utility_Cart_Our_Revenue
      TCU_Our_Revenue Autofiller_Unit_Our_Revenue
      Installation_Market_Revenue Installation_Our_Revenue
      Service_Market_Revenue Service_Our_Revenue
    dsimp only
    ring

/-- Witness for C3 (amended) at a concrete all-partner row. -/
theorem C3_TCU_amended_witness :
    TCU_Our_Revenue serviceConsRow0 = TCU_Our_Cost serviceConsRow0 :=
  (C3_TCU_amended serviceScenario 0 serviceConsRow0).1 rfl rfl

/-- Claim C3 counterexample: on a value-chain row with nonzero units sold
(10 new carts: 9 direct, 1 partner), TCU internal revenue (5000) differs
from TCU internal cost (50000), and TCU market revenue (6000) differs from
TCU internal revenue — refuting both the claimed equality on
nonzero-unit rows and the claimed by-construction equality of the TCU market
and internal revenues. -/
theorem C3_counterexample :
    directConsRow.Monthly_New_Carts ≠ 0
    ∧ ¬ (TCU_Our_Revenue directConsRow = TCU_Our_Cost directConsRow)
    ∧ ¬ (TCU_Market_Revenue directConsRow = TCU_Our_Revenue directConsRow) := by
  refine ⟨by decide, ?_, ?_⟩
  · unfold TCU_Our_Revenue TCU_Our_Cost
    simp only [directConsRow, directCartRow, consRowOf, priceRowOf,
      applyInflationAndReductionQ, directScenario, CartConfig.TCU_COST]
    norm_num
  · unfold TCU_Market_Revenue TCU_Our_Revenue
    simp only [directConsRow, directCartRow, consRowOf, priceRowOf,
      applyInflationAndReductionQ, directScenario, CartConfig.TCU_COST,
      CartConfig.TCU_PRICE]
    norm_num

/-
Claim C4: the recurring service line.
-/

/-- Element-wise characterisation of the shift pairing: row `i + 1` is paired
with row `i`'s cumulative columns. -/
theorem withPrev_getElem_succ (rows : List ConsRow) (pT pC : ℤ) (i : ℕ) :
    (withPrev pT pC rows)[i + 1]?
      = (rows[i]?).bind (fun prev => (rows[i + 1]?).map
          (fun cur => (prev.Total_Carts, prev.Cumulative_Partner_Carts, cur))) := by
  induction rows generalizing pT pC i with
  | nil => simp [withPrev]
  | cons r rest ih =>
      cases i with
      | zero =>
          cases rest with
          | nil => simp [withPrev]
          | cons r2 rest2 => simp [withPrev]
      | succ i =>
          simp only [withPrev, List.getElem?_cons_succ]
          exact ih r.Total_Carts r.Cumulative_Partner_Carts i

/-- Claim C4 (amended): the source reads no `enable_service` key; the service
line is gated solely by `service_adoption`.  On every row after the first,
monthly service revenue equals the PRIOR row's cumulative partner units times
the current row's adjusted end-customer hardware price times the annual
service-contract percentage over 12 times the adoption fraction, and with
`service_adoption = 0` all three service columns vanish on every row. -/
theorem C4_service_amended (s : Scenario) (rows : List ConsRow) :
    (∀ (i : ℕ) (prev cur : ConsRow), rows[i]? = some prev → rows[i + 1]? = some cur →
      ((withPrev 0 0 rows)[i + 1]?).map (fun x => Service_Our_Revenue s x.2.1 x.2.2)
        = some ((prev.Cumulative_Partner_Carts : ℚ) * cur.End_Customer_Hardware_Price
            * SoftwareConfig.SERVICE_CONTRACT_PERCENTAGE / 12 * s.service_adoption))
    ∧ (s.service_adoption = 0 → ∀ (pT pC : ℤ) (r : ConsRow),
      Service_Our_Revenue s pC r = 0 ∧ Service_Market_Revenue s pC r = 0
        ∧ Service_Our_Cost s pT r = 0) := by
  constructor
  · intro i prev cur hp hc
    rw [withPrev_getElem_succ, hp, hc]
    simp only [Option.bind_some, Option.map_some']
    rfl
  · intro h0 pT pC r
    unfold Service_Our_Revenue Service_Market_Revenue Service_Our_Cost
    rw [h0]
    refine ⟨by ring, by ring, by ring⟩

/-- Witness for C4 (amended) on the two-row service example. -/
theorem C4_service_amended_witness :
    ((withPrev 0 0 [serviceConsRow0, serviceConsRow1])[0 + 1]?).map
        (fun x => Service_Our_Revenue serviceScenario x.2.1 x.2.2)
      = some ((serviceConsRow0.Cumulative_Partner_Carts : ℚ)
          * serviceConsRow1.End_Customer_Hardware_Price
          * SoftwareConfig.SERVICE_CONTRACT_PERCENTAGE / 12
          * serviceScenario.service_adoption) :=
  (C4_service_amended serviceScenario [serviceConsRow0, serviceConsRow1]).1
    0 serviceConsRow0 serviceConsRow1 rfl rfl

/-- Claim C4 counterexample: no scenario carries an `enable_service` toggle
(the source never reads one), yet the service revenue column is NOT zero on
every row — in month 2 of `serviceScenario` it is
`1 × 212000 × 0.10 / 12 × 1 = 5300/3`. -/
theorem C4_counterexample :
    ¬ (∀ x ∈ withPrev 0 0 [serviceConsRow0, serviceConsRow1],
        Service_Our_Revenue serviceScenario x.2.1 x.2.2 = 0) := by
  intro h
  have hmem : (serviceConsRow0.Total_Carts, serviceConsRow0.Cumulative_Partner_Carts,
      serviceConsRow1) ∈ withPrev 0 0 [serviceConsRow0, serviceConsRow1] := by
    simp [withPrev]
  have hval := h _ hmem
  rw [Service_Our_Revenue] at hval
  simp only [serviceConsRow0, serviceConsRow1, consRowOf, priceRowOf,
    applyInflationAndReductionQ, serviceScenario,
    SoftwareConfig.SERVICE_CONTRACT_PERCENTAGE,
    FinancialConfig.INITIAL_SELLING_PRICE] at hval
  norm_num at hval

/-
Claim C10: the installation line.
-/

/-- Claim C10: installation internal revenue and installation market revenue
are the same formula (`Partner_Carts × Installation_End_Price`, no partner
discount), and the installation line contributes exactly zero to
`Partner_Profit` even without an explicit correction term: the two equal
entries cancel between total market revenue and total internal revenue, so
`Partner_Profit` is independent of the installation price. -/
theorem C10_installation_passthrough (s : Scenario) (pC : ℤ) (r : ConsRow) :
    Installation_Our_Revenue r = Installation_Market_Revenue r
    ∧ ∀ p : ℚ,
      Partner_Profit s pC { r with Installation_End_Price := p }
        = Partner_Profit s pC r := by
  constructor
  · rfl
  · intro p
    rw [Partner_Profit_char, Partner_Profit_char]
    congr 1
    unfold Total_Hardware_System_Market_Revenue Total_Hardware_System_Our_Revenue
      Hardware_System_Market_Revenue Utility_Cart_Market_Revenue
      TCU_Market_Revenue Autofiller_Unit_Market_Revenue
      Hardware_System_Our_Revenue Utility_Cart_Our_Revenue
      TCU_Our_Revenue Autofiller_Unit_Our_Revenue
      Installation_Market_Revenue Installation_Our_Revenue
      Service_Market_Revenue Service_Our_Revenue
    dsimp only
    ring
